import Mathlib

/-!
# Verification of the Maryland child-support calculator core

Shallow embedding of the calculation pipeline of the `md-child-support`
repository (files `src/schedule.ts`, `src/addons.ts`, `src/multifamily.ts`,
`src/shared.ts`, `src/calc.ts`).  JavaScript numbers are modelled as `ℚ`
(the source performs exact-looking arithmetic on monthly dollar amounts);
thrown `Error`s are modelled as `Except String`; TS `Record<string, number>`
worksheet maps are modelled as association lists `List (String × ℚ)` built in
the same insertion order.  Note strings that interpolate `toFixed`-formatted
numbers keep only their fixed text.
-/

namespace MdChildSupport

/-- Custody type (`src/schema.ts`): PRIMARY runs Worksheet A, SHARED Worksheet B. -/
inductive CustodyType where
  | PRIMARY
  | SHARED
deriving DecidableEq, Repr

/-- Parent identifier (`"P1" | "P2"` in the source). -/
inductive Parent where
  | P1
  | P2
deriving DecidableEq, Repr

/-- `LookupStatus` from `src/schedule.ts`. -/
inductive LookupStatus where
  | ok
  | atOrBelowMinimum
  | aboveTop
deriving DecidableEq, Repr

/-- Advisory tags that appear in results (`src/calc.ts`). -/
inductive Advisory where
  | aboveTopOfSchedule
  | redirectedToWorksheetA
deriving DecidableEq, Repr

/-- `ParentIncome` (`src/schema.ts`): monthly financial facts for one parent.
The zod defaults (`?? 0`) are baked in, so every field is present. -/
structure ParentIncome where
  actualMonthly : ℚ
  preexistingSupportPaid : ℚ
  alimonyPaid : ℚ
  alimonyReceived : ℚ
  multifamilyChildrenInHome : ℤ
deriving DecidableEq, Repr

/-- `AddOns` (`src/schema.ts`): the five add-on expense categories.  The same
shape is used for per-parent direct payments. -/
structure AddOns where
  childcare : ℚ
  healthInsurance : ℚ
  extraordinaryMedical : ℚ
  cashMedicalIVD : ℚ
  additionalExpenses : ℚ
deriving DecidableEq, Repr

/-- `DirectPay` (`src/schema.ts`): one `AddOns` record per parent. -/
structure DirectPay where
  parent1 : AddOns
  parent2 : AddOns
deriving DecidableEq, Repr

/-- `CaseInputs` (`src/schema.ts`). -/
structure CaseInputs where
  numChildrenThisCase : ℕ
  custodyType : CustodyType
  primaryCustodian : Parent
  overnightsParent1 : ℚ
  parent1 : ParentIncome
  parent2 : ParentIncome
  addOns : AddOns
  directPay : DirectPay
deriving DecidableEq, Repr

/-- `Schedule` (`src/schedule.ts`): ascending combined-income breakpoints and
per-child-count columns.  The TS `Record` keyed by `String(numChildren)` is
modelled as an association list keyed by the child count itself (the
`String(·)` conversion is injective); the optional `meta` field is unused by
the calculator and omitted. -/
structure Schedule where
  combinedMonthlyIncome : List ℚ
  byChildren : List (ℕ × List ℚ)
deriving DecidableEq, Repr

/-- `LookupResult` (`src/schedule.ts`). -/
structure LookupResult where
  status : LookupStatus
  amount : Option ℚ
  usedRowIndex : Option ℕ
  usedRowIncome : Option ℚ
deriving DecidableEq, Repr

/-- The strict-ascent loop of `validateSchedule` (`src/schedule.ts` lines
117-121): every adjacent pair must be strictly increasing. -/
def strictlyAscending : List ℚ → Bool
  | [] => true
  | [_] => true
  | a :: b :: rest => decide (a < b) && strictlyAscending (b :: rest)

/-- Column lookup `schedule.byChildren[String(numChildren)]`. -/
def findColumn (s : Schedule) (n : ℕ) : Option (List ℚ) :=
  (s.byChildren.find? (fun p => p.1 == n)).map Prod.snd

/-- `validateSchedule` (`src/schedule.ts` lines 112-130): empty table, a
non-ascending income ladder, or a column whose length differs from the income
list are fatal structural errors. -/
def validateSchedule (s : Schedule) : Except String Unit :=
  if s.combinedMonthlyIncome.isEmpty then
    Except.error "Schedule has no income rows."
  else if ¬ strictlyAscending s.combinedMonthlyIncome then
    Except.error "combinedMonthlyIncome must be strictly ascending."
  else if s.byChildren.all (fun p => p.2.length == s.combinedMonthlyIncome.length) then
    Except.ok ()
  else
    Except.error "byChildren column length != incomes length"

/-- `ceilingIndex` (`src/schedule.ts` lines 140-145): index of the first
breakpoint `≥ target`, `none` when the target is above the top (TS returns
`-1`). -/
def ceilingIndex (sortedAsc : List ℚ) (target : ℚ) : Option ℕ :=
  match sortedAsc with
  | [] => none
  | x :: rest => if target ≤ x then some 0 else (ceilingIndex rest target).map (· + 1)

/-- `lookupBasicObligation` (`src/schedule.ts` lines 165-199).  The TS
`incomes[0]` read in the status test is modelled with `headD 0`; the guard
`idx = 0` only fires when `ceilingIndex` found index 0, which requires a
nonempty list, so the default is never consulted on reachable paths.
Similarly `col[idx]` / `incomes[idx]` are in range once validation passed, so
the `Option`-valued reads `col[idx]?` / `incomes[idx]?` are always `some`. -/
def lookupBasicObligation (schedule : Schedule) (combinedIncome : ℚ)
    (numChildren : ℕ) : Except String LookupResult :=
  match validateSchedule schedule with
  | Except.error e => Except.error e
  | Except.ok _ =>
    let incomes := schedule.combinedMonthlyIncome
    match ceilingIndex incomes combinedIncome with
    | none =>
      Except.ok { status := LookupStatus.aboveTop, amount := none,
                  usedRowIndex := none, usedRowIncome := none }
    | some idx =>
      match findColumn schedule numChildren with
      | none => Except.error "Schedule has no column for requested children."
      | some col =>
        let status :=
          if idx = 0 ∧ combinedIncome ≤ incomes.headD 0 then
            LookupStatus.atOrBelowMinimum
          else LookupStatus.ok
        Except.ok { status := status, amount := col[idx]?,
                    usedRowIndex := some idx, usedRowIncome := incomes[idx]? }

/-- `totalAddOns` (`src/addons.ts` lines 17-25). -/
def totalAddOns (a : AddOns) : ℚ :=
  a.childcare + a.healthInsurance + a.extraordinaryMedical +
    a.cashMedicalIVD + a.additionalExpenses

/-- Result of `splitByShare`. -/
structure ShareSplit where
  p1 : ℚ
  p2 : ℚ
deriving DecidableEq, Repr

/-- `splitByShare` (`src/addons.ts` lines 35-39): Parent 1 takes
`total × p1Share`, Parent 2 the remainder. -/
def splitByShare (total p1Share : ℚ) : ShareSplit :=
  let p1 := total * p1Share
  { p1 := p1, p2 := total - p1 }

/-- `directPayTotalForParent` (`src/addons.ts` lines 49-57): same five-way sum
as `totalAddOns`, over the direct payments of one parent. -/
def directPayTotalForParent (dp : AddOns) : ℚ :=
  dp.childcare + dp.healthInsurance + dp.extraordinaryMedical +
    dp.cashMedicalIVD + dp.additionalExpenses

/-- `directPayConsistencyWarning` (`src/addons.ts` lines 67-77).  The TS
message interpolates the two `toFixed(2)` numbers; only the fixed text is
kept here. -/
def directPayConsistencyWarning (addOnsTotal p1 p2 : ℚ) : Option String :=
  let sum := p1 + p2
  if |sum - addOnsTotal| > 1 / 1000000 then
    some "Note: direct-pay sum != add-ons total."
  else none

/-- `adjustedActualIncome` (`src/calc.ts` lines 236-247):
income − preexisting support − alimony paid + alimony received − allowance. -/
def adjustedActualIncome (p : ParentIncome) (allowance : ℚ) : ℚ :=
  p.actualMonthly - p.preexistingSupportPaid - p.alimonyPaid +
    p.alimonyReceived - allowance

/-- `multifamilyAllowance` (`src/multifamily.ts` lines 20-45, identical copy
at `src/calc.ts` lines 257-282): zero for a non-positive in-home child count;
otherwise 0.75 × (one-child basic for the own income of the parent) × count, with
the last one-child entry as the fallback base when the lookup is above-top.
The TS fallback error for a missing or empty one-child column reuses one
message for both conditions. -/
def multifamilyAllowance (schedule : Schedule) (parent : ParentIncome) :
    Except String ℚ :=
  let count := parent.multifamilyChildrenInHome
  if count ≤ 0 then Except.ok 0
  else
    match lookupBasicObligation schedule parent.actualMonthly 1 with
    | Except.error e => Except.error e
    | Except.ok lookup =>
      match lookup.amount with
      | some baseAmount => Except.ok (3 / 4 * baseAmount * (count : ℚ))
      | none =>
        match findColumn schedule 1 with
        | none =>
          Except.error "Schedule missing one-child column for multifamily allowance."
        | some column =>
          match column.getLast? with
          | none =>
            Except.error "Schedule missing one-child column for multifamily allowance."
          | some lastAmount => Except.ok (3 / 4 * lastAmount * (count : ℚ))

/-- Result slice returned by `computeBasic` (`src/calc.ts` lines 320-334). -/
structure BasicResult where
  path : String
  basicStatus : LookupStatus
  basic : Option ℚ
  usedRowIncome : Option ℚ
  p1AAI : ℚ
  p2AAI : ℚ
  combinedAAI : ℚ
  p1Share : ℚ
  p2Share : ℚ
deriving DecidableEq, Repr

/-- `computeBasic` (`src/calc.ts` lines 292-335): per-parent AAI including the
multifamily allowance, combined AAI, income shares with the explicit 50/50
fallback at zero combined AAI, and the schedule lookup. -/
def computeBasic (inputs : CaseInputs) (schedule : Schedule) :
    Except String BasicResult :=
  match multifamilyAllowance schedule inputs.parent1 with
  | Except.error e => Except.error e
  | Except.ok m1 =>
    match multifamilyAllowance schedule inputs.parent2 with
    | Except.error e => Except.error e
    | Except.ok m2 =>
      let p1AAI := adjustedActualIncome inputs.parent1 m1
      let p2AAI := adjustedActualIncome inputs.parent2 m2
      let combinedAAI := p1AAI + p2AAI
      let p1Share := if combinedAAI = 0 then 1 / 2 else p1AAI / combinedAAI
      let p2Share := 1 - p1Share
      match lookupBasicObligation schedule combinedAAI inputs.numChildrenThisCase with
      | Except.error e => Except.error e
      | Except.ok basicRes =>
        Except.ok
          { path := if inputs.custodyType = CustodyType.SHARED then "WorksheetB" else "WorksheetA"
            basicStatus := basicRes.status
            basic := basicRes.amount
            usedRowIncome := basicRes.usedRowIncome
            p1AAI := p1AAI, p2AAI := p2AAI, combinedAAI := combinedAAI
            p1Share := p1Share, p2Share := p2Share }

/-- Worksheet A result through line 6 (`src/calc.ts` lines 200-214). -/
structure PrimaryTotalsResult where
  path : String
  advisory : Option Advisory
  basic : Option ℚ
  usedRowIncome : Option ℚ
  p1AAI : ℚ
  p2AAI : ℚ
  combinedAAI : ℚ
  p1Share : ℚ
  p2Share : ℚ
  addOnsTotal : ℚ
  totalObligation : Option ℚ
  p1Obligation : Option ℚ
  p2Obligation : Option ℚ
deriving DecidableEq, Repr

/-- Advisory-only Worksheet A totals (`src/calc.ts` lines 356-371). -/
def primaryAdvisoryTotals (inputs : CaseInputs) (base : BasicResult) :
    PrimaryTotalsResult :=
  { path := "WorksheetA"
    advisory := some Advisory.aboveTopOfSchedule
    basic := none
    usedRowIncome := none
    p1AAI := base.p1AAI, p2AAI := base.p2AAI, combinedAAI := base.combinedAAI
    p1Share := base.p1Share, p2Share := base.p2Share
    addOnsTotal := totalAddOns inputs.addOns
    totalObligation := none
    p1Obligation := none
    p2Obligation := none }

/-- Non-advisory Worksheet A totals (`src/calc.ts` lines 374-394):
line 5 = basic + add-ons, line 6 = that total split by income share. -/
def primaryMainTotals (inputs : CaseInputs) (base : BasicResult)
    (basicAmt : ℚ) : PrimaryTotalsResult :=
  let addOnsTotal := totalAddOns inputs.addOns
  let totalObligation := basicAmt + addOnsTotal
  let split := splitByShare totalObligation base.p1Share
  { path := "WorksheetA"
    advisory := none
    basic := some basicAmt
    usedRowIncome := base.usedRowIncome
    p1AAI := base.p1AAI, p2AAI := base.p2AAI, combinedAAI := base.combinedAAI
    p1Share := base.p1Share, p2Share := base.p2Share
    addOnsTotal := addOnsTotal
    totalObligation := some totalObligation
    p1Obligation := some split.p1
    p2Obligation := some split.p2 }

/-- `computePrimaryTotals` (`src/calc.ts` lines 344-395): fails loudly on a
non-PRIMARY case, otherwise short-circuits to the advisory record when the
lookup was above-top (`basicStatus === "aboveTop" || basic == null`). -/
def computePrimaryTotals (inputs : CaseInputs) (schedule : Schedule) :
    Except String PrimaryTotalsResult :=
  if inputs.custodyType ≠ CustodyType.PRIMARY then
    Except.error "computePrimaryTotals expects custodyType PRIMARY"
  else
    match computeBasic inputs schedule with
    | Except.error e => Except.error e
    | Except.ok base =>
      match base.basic with
      | none => Except.ok (primaryAdvisoryTotals inputs base)
      | some basicAmt =>
        if base.basicStatus = LookupStatus.aboveTop then
          Except.ok (primaryAdvisoryTotals inputs base)
        else Except.ok (primaryMainTotals inputs base basicAmt)

/-- Full Worksheet A result (`src/calc.ts` lines 219-226). -/
structure PrimaryFinalResult extends PrimaryTotalsResult where
  line7_p1DirectPay : Option ℚ
  line7_p2DirectPay : Option ℚ
  line8_p1Recommended : Option ℚ
  line8_p2Recommended : Option ℚ
  line9_recommendedOrder : Option ℚ
  note : Option String
deriving DecidableEq, Repr

/-- Advisory pass-through of `computePrimaryFinal`
(`src/calc.ts` lines 416-427). -/
def primaryAdvisoryFinal (t : PrimaryTotalsResult) : PrimaryFinalResult :=
  { toPrimaryTotalsResult := t
    line7_p1DirectPay := none
    line7_p2DirectPay := none
    line8_p1Recommended := none
    line8_p2Recommended := none
    line9_recommendedOrder := none
    note := some "Above top of schedule; court discretion." }

/-- Lines 7-9 of Worksheet A (`src/calc.ts` lines 429-452): per-parent direct
pay, per-parent recommended amount `max(0, line6 − line7)`, and the
amount of the non-custodial parent brought down as the recommended order. -/
def primaryMainFinal (inputs : CaseInputs) (t : PrimaryTotalsResult) :
    PrimaryFinalResult :=
  let p1Direct := directPayTotalForParent inputs.directPay.parent1
  let p2Direct := directPayTotalForParent inputs.directPay.parent2
  let note := directPayConsistencyWarning t.addOnsTotal p1Direct p2Direct
  let p1Rec := max 0 (t.p1Obligation.getD 0 - p1Direct)
  let p2Rec := max 0 (t.p2Obligation.getD 0 - p2Direct)
  let nonCustodialPays :=
    if inputs.primaryCustodian = Parent.P1 then p2Rec else p1Rec
  { toPrimaryTotalsResult := t
    line7_p1DirectPay := some p1Direct
    line7_p2DirectPay := some p2Direct
    line8_p1Recommended := some p1Rec
    line8_p2Recommended := some p2Rec
    line9_recommendedOrder := some nonCustodialPays
    note := note }

/-- `computePrimaryFinal` (`src/calc.ts` lines 405-453). -/
def computePrimaryFinal (inputs : CaseInputs) (schedule : Schedule) :
    Except String PrimaryFinalResult :=
  if inputs.custodyType ≠ CustodyType.PRIMARY then
    Except.error "computePrimaryFinal expects custodyType PRIMARY"
  else
    match computePrimaryTotals inputs schedule with
    | Except.error e => Except.error e
    | Except.ok t =>
      if t.advisory = some Advisory.aboveTopOfSchedule then
        Except.ok (primaryAdvisoryFinal t)
      else Except.ok (primaryMainFinal inputs t)

/-- `adjustedBasic` (`src/shared.ts` lines 113-115): 1.5 × basic. -/
def adjustedBasic (basic : ℚ) : ℚ :=
  basic * (3 / 2)

/-- `overnightPercents` (`src/shared.ts` lines 125-130): clamp the Parent 1
overnights into [0,365] and return both parent fractions of the year. -/
def overnightPercents (overnightsP1 : ℚ) : ℚ × ℚ :=
  let total : ℚ := 365
  let p1 := max 0 (min total overnightsP1)
  let p2 := total - p1
  (p1 / total, p2 / total)

/-- `meetsSharedThreshold` (`src/shared.ts` lines 139-142): both overnight
percentages must be at least 25%. -/
def meetsSharedThreshold (overnightsP1 : ℚ) : Bool :=
  let pcts := overnightPercents overnightsP1
  decide (pcts.1 ≥ 1 / 4) && decide (pcts.2 ≥ 1 / 4)

/-- Result of `sharedStarter` (`src/shared.ts`). -/
structure SharedStarterResult where
  advisory : Option Advisory
  redirectToWorksheetA : Bool
  basic : Option ℚ
  adjustedBasic : Option ℚ
  usedRowIncome : Option ℚ
  p1AAI : ℚ
  p2AAI : ℚ
  combinedAAI : ℚ
  p1Share : ℚ
  p2Share : ℚ
  overnightsP1 : ℚ
  overnightPctP1 : Option ℚ
  overnightPctP2 : Option ℚ
deriving DecidableEq, Repr

/-- `sharedStarter` (`src/shared.ts` lines 156-228).  The TS function
receives `computeBasic` as an injected capability; the only caller
(`computeSharedFinal`) always injects `computeBasic` from `src/calc.ts`, so
the call is inlined here. -/
def sharedStarter (inputs : CaseInputs) (schedule : Schedule) :
    Except String SharedStarterResult :=
  if inputs.custodyType ≠ CustodyType.SHARED then
    Except.error "sharedStarter expects custodyType SHARED"
  else
    match computeBasic inputs schedule with
    | Except.error e => Except.error e
    | Except.ok base =>
      match base.basic with
      | none =>
        Except.ok
          { advisory := some Advisory.aboveTopOfSchedule
            redirectToWorksheetA := false
            basic := none, adjustedBasic := none
            usedRowIncome := base.usedRowIncome
            p1AAI := base.p1AAI, p2AAI := base.p2AAI
            combinedAAI := base.combinedAAI
            p1Share := base.p1Share, p2Share := base.p2Share
            overnightsP1 := inputs.overnightsParent1
            overnightPctP1 := none, overnightPctP2 := none }
      | some b =>
        if base.basicStatus = LookupStatus.aboveTop then
          Except.ok
            { advisory := some Advisory.aboveTopOfSchedule
              redirectToWorksheetA := false
              basic := none, adjustedBasic := none
              usedRowIncome := base.usedRowIncome
              p1AAI := base.p1AAI, p2AAI := base.p2AAI
              combinedAAI := base.combinedAAI
              p1Share := base.p1Share, p2Share := base.p2Share
              overnightsP1 := inputs.overnightsParent1
              overnightPctP1 := none, overnightPctP2 := none }
        else if ¬ meetsSharedThreshold inputs.overnightsParent1 then
          Except.ok
            { advisory := none
              redirectToWorksheetA := true
              basic := some b, adjustedBasic := none
              usedRowIncome := base.usedRowIncome
              p1AAI := base.p1AAI, p2AAI := base.p2AAI
              combinedAAI := base.combinedAAI
              p1Share := base.p1Share, p2Share := base.p2Share
              overnightsP1 := inputs.overnightsParent1
              overnightPctP1 := none, overnightPctP2 := none }
        else
          Except.ok
            { advisory := none
              redirectToWorksheetA := false
              basic := some b, adjustedBasic := some (adjustedBasic b)
              usedRowIncome := base.usedRowIncome
              p1AAI := base.p1AAI, p2AAI := base.p2AAI
              combinedAAI := base.combinedAAI
              p1Share := base.p1Share, p2Share := base.p2Share
              overnightsP1 := inputs.overnightsParent1
              overnightPctP1 := some (overnightPercents inputs.overnightsParent1).1
              overnightPctP2 := some (overnightPercents inputs.overnightsParent1).2 }

/-- `overnightAdjustmentAmount` (`src/calc.ts` lines 463-469): the line-10
value produced for the 92-109 overnight band.  Note that for fewer than 92
overnights the code returns the full `theoretical` value (which line 11 then
subtracts, leaving zero), even though its own doc comment says the parent
pays the full theoretical amount there. -/
def overnightAdjustmentAmount (theoretical overnights : ℚ) : ℚ :=
  if overnights ≥ 110 then 0
  else if overnights < 92 then theoretical
  else
    let diff := 110 - overnights
    if diff ≤ 0 then 0 else theoretical * (diff / 18)

/-- `determinePrimaryCustodianFromOvernights` (`src/calc.ts` lines 479-484):
the parent with more nights becomes primary custodian; ties go to Parent 1. -/
def determinePrimaryCustodianFromOvernights (overnightsP1 : ℚ) : Parent :=
  let p1Pct := overnightsP1 / 365
  if p1Pct > 1 / 2 then Parent.P1
  else if p1Pct < 1 / 2 then Parent.P2
  else Parent.P1

/-- The opposite parent (TS writes `payor === "P1" ? "P2" : "P1"` inline). -/
def otherParent : Parent → Parent
  | Parent.P1 => Parent.P2
  | Parent.P2 => Parent.P1

/-- Display name used inside note strings. -/
def parentName : Parent → String
  | Parent.P1 => "P1"
  | Parent.P2 => "P2"

/-- Redirect note template (`src/calc.ts` line 561). -/
def redirectNote (pc : Parent) : String :=
  "Shared custody threshold not met; redirected to Worksheet A using " ++
    parentName pc ++ " as primary custodian."

/-- `capApplied` record of the computed Worksheet B outcome
(`src/calc.ts` line 510). -/
structure CapInfo where
  before : ℚ
  after : ℚ
  primary : Option ℚ
deriving DecidableEq, Repr

/-- `SharedFinalResult` (`src/calc.ts` lines 491-511), the tagged union of the
three Worksheet B outcomes.  The `advisory` variant always carries the
`aboveTopOfSchedule` tag and the `computed` variant always carries
`advisory: null` in TS, so those constant fields are left implicit. -/
inductive SharedFinalResult where
  | advisory (worksheet : List (String × ℚ))
  | redirected (primaryCustodian : Parent) (primaryResult : PrimaryFinalResult)
      (note : String)
  | computed (payor : Option Parent) (recommended : ℚ) (note : Option String)
      (worksheet : List (String × ℚ)) (capApplied : Option CapInfo)
deriving DecidableEq, Repr

/-- All intermediate values of the computed stage of Worksheet B
(`src/calc.ts` lines 570-611), gathered in one record. -/
structure SharedWork where
  adjustedBasicV : ℚ
  p1Share : ℚ
  p2Share : ℚ
  pctP1 : ℚ
  pctP2 : ℚ
  line8_p1 : ℚ
  line8_p2 : ℚ
  line9_p1 : ℚ
  line9_p2 : ℚ
  p1Overnights : ℚ
  p2Overnights : ℚ
  line10_p1 : ℚ
  line10_p2 : ℚ
  line11_p1 : ℚ
  line11_p2 : ℚ
  addOnsTotal : ℚ
  addOnShareP1 : ℚ
  addOnShareP2 : ℚ
  line14_p1 : ℚ
  line14_p2 : ℚ
  p1Direct : ℚ
  p2Direct : ℚ
  line15_p1 : ℚ
  line15_p2 : ℚ
  diff : ℚ
  note : Option String
  starterBasic : ℚ
  starterP1AAI : ℚ
  starterP2AAI : ℚ

/-- Line-by-line math of the computed stage (`src/calc.ts` lines 570-611):
shares of the adjusted basic, theoretical obligations, the 92-109 overnight
adjustment with its zero floor, add-on split, and direct-pay subtraction with
its zero floor (the `?? 0` defaults on the nullable starter fields are
`getD 0`). -/
def mkSharedWork (inputs : CaseInputs) (starter : SharedStarterResult) :
    SharedWork :=
  let adjustedBasicV := starter.adjustedBasic.getD 0
  let p1Share := starter.p1Share
  let p2Share := starter.p2Share
  let pctP1 := starter.overnightPctP1.getD 0
  let pctP2 := starter.overnightPctP2.getD 0
  let line8_p1 := adjustedBasicV * p1Share
  let line8_p2 := adjustedBasicV * p2Share
  let line9_p1 := line8_p1 * pctP2
  let line9_p2 := line8_p2 * pctP1
  let p1Overnights := starter.overnightsP1
  let p2Overnights := 365 - p1Overnights
  let line10_p1 := overnightAdjustmentAmount line9_p1 p1Overnights
  let line10_p2 := overnightAdjustmentAmount line9_p2 p2Overnights
  let line11_p1 := max 0 (line9_p1 - line10_p1)
  let line11_p2 := max 0 (line9_p2 - line10_p2)
  let addOnsTotal := totalAddOns inputs.addOns
  let addOnShares := splitByShare addOnsTotal p1Share
  let line14_p1 := line11_p1 + addOnShares.p1
  let line14_p2 := line11_p2 + addOnShares.p2
  let p1Direct := directPayTotalForParent inputs.directPay.parent1
  let p2Direct := directPayTotalForParent inputs.directPay.parent2
  { adjustedBasicV := adjustedBasicV
    p1Share := p1Share, p2Share := p2Share
    pctP1 := pctP1, pctP2 := pctP2
    line8_p1 := line8_p1, line8_p2 := line8_p2
    line9_p1 := line9_p1, line9_p2 := line9_p2
    p1Overnights := p1Overnights, p2Overnights := p2Overnights
    line10_p1 := line10_p1, line10_p2 := line10_p2
    line11_p1 := line11_p1, line11_p2 := line11_p2
    addOnsTotal := addOnsTotal
    addOnShareP1 := addOnShares.p1, addOnShareP2 := addOnShares.p2
    line14_p1 := line14_p1, line14_p2 := line14_p2
    p1Direct := p1Direct, p2Direct := p2Direct
    line15_p1 := max 0 (line14_p1 - p1Direct)
    line15_p2 := max 0 (line14_p2 - p2Direct)
    diff := max 0 (line14_p1 - p1Direct) - max 0 (line14_p2 - p2Direct)
    note := directPayConsistencyWarning addOnsTotal p1Direct p2Direct
    starterBasic := starter.basic.getD 0
    starterP1AAI := starter.p1AAI
    starterP2AAI := starter.p2AAI }

/-- Net determination (`src/calc.ts` lines 611-624): payor and pre-cap
recommended amount from the signed line-15 difference, with no payor when the
difference is within 1e-6 of zero. -/
def sharedNet (diff : ℚ) : Option Parent × ℚ :=
  if |diff| > 1 / 1000000 then
    if diff > 0 then (some Parent.P1, diff) else (some Parent.P2, -diff)
  else (none, 0)

/-- The Worksheet B line-item map (`src/calc.ts` lines 647-676), in the same
insertion order as the source. -/
def sharedWorksheet (w : SharedWork) (payor : Option Parent)
    (beforeCap : ℚ) : List (String × ℚ) :=
  [("line2_p1AAI", w.starterP1AAI),
   ("line2_p2AAI", w.starterP2AAI),
   ("line3_p1Share", w.p1Share),
   ("line3_p2Share", w.p2Share),
   ("line4_basic", w.starterBasic),
   ("line5_adjustedBasic", w.adjustedBasicV),
   ("line6_overnightsP1", w.p1Overnights),
   ("line6_overnightsP2", w.p2Overnights),
   ("line7_pctP1", w.pctP1),
   ("line7_pctP2", w.pctP2),
   ("line8_p1ShareAdjustedBasic", w.line8_p1),
   ("line8_p2ShareAdjustedBasic", w.line8_p2),
   ("line9_p1Theoretical", w.line9_p1),
   ("line9_p2Theoretical", w.line9_p2),
   ("line10_p1Adjustment", w.line10_p1),
   ("line10_p2Adjustment", w.line10_p2),
   ("line11_p1AfterAdjustment", w.line11_p1),
   ("line11_p2AfterAdjustment", w.line11_p2),
   ("line13_totalAddOns", w.addOnsTotal),
   ("line13_p1Share", w.addOnShareP1),
   ("line13_p2Share", w.addOnShareP2),
   ("line14_p1Total", w.line14_p1),
   ("line14_p2Total", w.line14_p2),
   ("line15_p1DirectPay", w.p1Direct),
   ("line15_p2DirectPay", w.p2Direct),
   ("line15_p1Recommended", w.line15_p1),
   ("line15_p2Recommended", w.line15_p2),
   ("line16_beforeCap", if payor.isSome then beforeCap else 0)]

/-- Computed stage of Worksheet B (`src/calc.ts` lines 570-686): net
determination followed by the cap against the Worksheet A rerun with the
non-payor as primary custodian. -/
def sharedComputedStage (inputs : CaseInputs) (schedule : Schedule)
    (starter : SharedStarterResult) : Except String SharedFinalResult :=
  match (sharedNet (mkSharedWork inputs starter).diff).1 with
  | none =>
    Except.ok (SharedFinalResult.computed none
      (sharedNet (mkSharedWork inputs starter).diff).2
      (mkSharedWork inputs starter).note
      (sharedWorksheet (mkSharedWork inputs starter) none
        (sharedNet (mkSharedWork inputs starter).diff).2)
      none)
  | some p =>
    match computePrimaryFinal
        { inputs with custodyType := CustodyType.PRIMARY
                      primaryCustodian := otherParent p } schedule with
    | Except.error e => Except.error e
    | Except.ok primaryResult =>
      match primaryResult.line9_recommendedOrder with
      | some primaryAmount =>
        Except.ok (SharedFinalResult.computed (some p)
          (min (sharedNet (mkSharedWork inputs starter).diff).2 primaryAmount)
          (mkSharedWork inputs starter).note
          (sharedWorksheet (mkSharedWork inputs starter) (some p)
            (sharedNet (mkSharedWork inputs starter).diff).2)
          (some { before := (sharedNet (mkSharedWork inputs starter).diff).2
                  after := min (sharedNet (mkSharedWork inputs starter).diff).2
                    primaryAmount
                  primary := some primaryAmount }))
      | none =>
        Except.ok (SharedFinalResult.computed (some p)
          (sharedNet (mkSharedWork inputs starter).diff).2
          (mkSharedWork inputs starter).note
          (sharedWorksheet (mkSharedWork inputs starter) (some p)
            (sharedNet (mkSharedWork inputs starter).diff).2)
          none)

/-- `computeSharedFinal` (`src/calc.ts` lines 522-687). -/
def computeSharedFinal (inputs : CaseInputs) (schedule : Schedule) :
    Except String SharedFinalResult :=
  if inputs.custodyType ≠ CustodyType.SHARED then
    Except.error "computeSharedFinal expects custodyType SHARED"
  else
    match sharedStarter inputs schedule with
    | Except.error e => Except.error e
    | Except.ok starter =>
      if starter.advisory = some Advisory.aboveTopOfSchedule then
        Except.ok (SharedFinalResult.advisory
          [("line2_p1AAI", starter.p1AAI),
           ("line2_p2AAI", starter.p2AAI),
           ("line3_p1Share", starter.p1Share),
           ("line3_p2Share", starter.p2Share)])
      else if starter.redirectToWorksheetA then
        match computePrimaryFinal
            { inputs with custodyType := CustodyType.PRIMARY
                          primaryCustodian :=
                            determinePrimaryCustodianFromOvernights starter.overnightsP1 }
            schedule with
        | Except.error e => Except.error e
        | Except.ok primaryResult =>
          Except.ok (SharedFinalResult.redirected
            (determinePrimaryCustodianFromOvernights starter.overnightsP1)
            primaryResult
            (redirectNote (determinePrimaryCustodianFromOvernights starter.overnightsP1)))
      else sharedComputedStage inputs schedule starter

/-- `CaseOutputs` (`src/schema.ts`): the result record of the orchestrator. -/
structure CaseOutputs where
  recommendedOrderParent1PaysParent2 : ℚ
  payor : Option Parent
  path : String
  worksheet : List (String × ℚ)
  notes : List String
  advisory : Option Advisory
deriving DecidableEq, Repr

/-- The `assign` helper of `calculateCase` (`src/calc.ts` lines 712-716):
emit an entry only when the value is an actual number. -/
def optEntry (key : String) : Option ℚ → List (String × ℚ)
  | some x => [(key, x)]
  | none => []

/-- The Worksheet A line-item map assembled by `calculateCase`
(`src/calc.ts` lines 717-729 and 758-770), in the same insertion order as the source. -/
def primaryWorksheetMap (r : PrimaryFinalResult) : List (String × ℚ) :=
  [("line2_p1AAI", r.p1AAI),
   ("line2_p2AAI", r.p2AAI),
   ("line3_p1Share", r.p1Share),
   ("line3_p2Share", r.p2Share)] ++
  optEntry "line4_basic" r.basic ++
  optEntry "line5_totalObligation" r.totalObligation ++
  optEntry "line6_p1Obligation" r.p1Obligation ++
  optEntry "line6_p2Obligation" r.p2Obligation ++
  optEntry "line7_p1DirectPay" r.line7_p1DirectPay ++
  optEntry "line7_p2DirectPay" r.line7_p2DirectPay ++
  optEntry "line8_p1Recommended" r.line8_p1Recommended ++
  optEntry "line8_p2Recommended" r.line8_p2Recommended ++
  optEntry "line9_recommendedOrder" r.line9_recommendedOrder

/-- Sign orientation used by `calculateCase`: positive amounts mean Parent 1
pays Parent 2 (`src/calc.ts` lines 710, 753, 804-808). -/
def orientAmount (payor : Option Parent) (amount : ℚ) : ℚ :=
  match payor with
  | some Parent.P1 => amount
  | some Parent.P2 => -amount
  | none => 0

/-- Cap note (`src/calc.ts` line 798); the TS text interpolates the
`toFixed(2)` primary amount, only the fixed text is kept. -/
def capNoteText : String :=
  "Shared result capped at primary custody equivalent."

/-- `calculateCase` (`src/calc.ts` lines 696-818): the orchestrator. -/
def calculateCase (inputs : CaseInputs) (schedule : Schedule) :
    Except String CaseOutputs :=
  match inputs.custodyType with
  | CustodyType.PRIMARY =>
    match computePrimaryFinal inputs schedule with
    | Except.error e => Except.error e
    | Except.ok result =>
      let payor : Option Parent :=
        if result.advisory = some Advisory.aboveTopOfSchedule then none
        else some (otherParent inputs.primaryCustodian)
      let amount := result.line9_recommendedOrder.getD 0
      Except.ok
        { recommendedOrderParent1PaysParent2 := orientAmount payor amount
          payor := payor
          path := "WorksheetA"
          worksheet := primaryWorksheetMap result
          notes := result.note.toList
          advisory := result.advisory }
  | CustodyType.SHARED =>
    match computeSharedFinal inputs schedule with
    | Except.error e => Except.error e
    | Except.ok sharedResult =>
      match sharedResult with
      | SharedFinalResult.redirected pc primaryResult note =>
        let payor : Option Parent :=
          if primaryResult.advisory = some Advisory.aboveTopOfSchedule then none
          else some (otherParent pc)
        let amount := primaryResult.line9_recommendedOrder.getD 0
        Except.ok
          { recommendedOrderParent1PaysParent2 := orientAmount payor amount
            payor := payor
            path := "WorksheetA"
            worksheet := primaryWorksheetMap primaryResult
            notes := note :: primaryResult.note.toList
            advisory := some Advisory.redirectedToWorksheetA }
      | SharedFinalResult.advisory ws =>
        Except.ok
          { recommendedOrderParent1PaysParent2 := 0
            payor := none
            path := "WorksheetB"
            worksheet := ws
            notes := []
            advisory := some Advisory.aboveTopOfSchedule }
      | SharedFinalResult.computed payor recommended note ws capApplied =>
        let capChanged :=
          match capApplied with
          | some c => c.primary.isSome && decide (|c.before - c.after| > 1 / 1000000)
          | none => false
        let notes := note.toList ++ (if capChanged then [capNoteText] else [])
        let ws2 :=
          match capApplied with
          | some c =>
            if capChanged then ws ++ [("line16_cappedAmount", c.after)] else ws
          | none => ws
        Except.ok
          { recommendedOrderParent1PaysParent2 := orientAmount payor recommended
            payor := payor
            path := "WorksheetB"
            worksheet := ws2
            notes := notes
            advisory := none }

/-- Reading one entry of a worksheet map (the TS side indexes the
`Record<string, number>` by key). -/
def wsGet (ws : List (String × ℚ)) (key : String) : Option ℚ :=
  (ws.find? (fun p => p.1 == key)).map Prod.snd

/-! ### Concrete fixtures used by the witness theorems -/

/-- Three-row demo table mirroring the schedule shape used by the repository
tests (2 children, combined 1600 → row 2000 → basic 300). -/
def demoSchedule : Schedule :=
  { combinedMonthlyIncome := [1000, 2000, 3000]
    byChildren := [(1, [150, 250, 350]), (2, [200, 300, 400])] }

/-- A single-row table keeping shared-custody arithmetic small. -/
def oneRowSchedule : Schedule :=
  { combinedMonthlyIncome := [10000]
    byChildren := [(1, [180]), (2, [300])] }

/-- A structurally broken table: breakpoints not strictly ascending. -/
def badAscSchedule : Schedule :=
  { combinedMonthlyIncome := [2000, 1000]
    byChildren := [(1, [150, 250])] }

/-- A structurally broken table: column length differs from the row count. -/
def mismatchSchedule : Schedule :=
  { combinedMonthlyIncome := [1000]
    byChildren := [(2, [100, 200])] }

/-- All-zero add-on record. -/
def zeroAddOns : AddOns :=
  { childcare := 0, healthInsurance := 0, extraordinaryMedical := 0
    cashMedicalIVD := 0, additionalExpenses := 0 }

/-- A parent with a plain monthly income and no adjustments. -/
def plainIncome (m : ℚ) : ParentIncome :=
  { actualMonthly := m, preexistingSupportPaid := 0, alimonyPaid := 0
    alimonyReceived := 0, multifamilyChildrenInHome := 0 }

/-- Shared-custody demo case: 200 overnights with Parent 1, incomes 900/300. -/
def demoSharedInputs : CaseInputs :=
  { numChildrenThisCase := 2, custodyType := CustodyType.SHARED
    primaryCustodian := Parent.P1, overnightsParent1 := 200
    parent1 := plainIncome 900, parent2 := plainIncome 300
    addOns := zeroAddOns
    directPay := { parent1 := zeroAddOns, parent2 := zeroAddOns } }

/-- Same case with only 80 overnights for Parent 1 (threshold fails). -/
def demoRedirectInputs : CaseInputs :=
  { demoSharedInputs with overnightsParent1 := 80 }

/-- Primary-custody demo case mirroring the reference scenario:
2 children, incomes 900/700, add-ons 120 + 30. -/
def demoPrimaryInputs : CaseInputs :=
  { numChildrenThisCase := 2, custodyType := CustodyType.PRIMARY
    primaryCustodian := Parent.P1, overnightsParent1 := 0
    parent1 := plainIncome 900, parent2 := plainIncome 700
    addOns := { zeroAddOns with childcare := 120, healthInsurance := 30 }
    directPay := { parent1 := zeroAddOns, parent2 := zeroAddOns } }

/-- The full Worksheet A record produced for `demoPrimaryInputs` on
`demoSchedule`. -/
def demoPrimaryResult : PrimaryFinalResult :=
  { path := "WorksheetA"
    advisory := none
    basic := some 300
    usedRowIncome := some 2000
    p1AAI := 900, p2AAI := 700, combinedAAI := 1600
    p1Share := 9 / 16, p2Share := 7 / 16
    addOnsTotal := 150
    totalObligation := some 450
    p1Obligation := some (2025 / 8)
    p2Obligation := some (1575 / 8)
    line7_p1DirectPay := some 0
    line7_p2DirectPay := some 0
    line8_p1Recommended := some (2025 / 8)
    line8_p2Recommended := some (1575 / 8)
    line9_recommendedOrder := some (1575 / 8)
    note := some "Note: direct-pay sum != add-ons total." }

/-- The Worksheet B line-item map produced for `demoSharedInputs` on
`oneRowSchedule`. -/
def demoSharedWs : List (String × ℚ) :=
  [("line2_p1AAI", 900), ("line2_p2AAI", 300),
   ("line3_p1Share", 3 / 4), ("line3_p2Share", 1 / 4),
   ("line4_basic", 300), ("line5_adjustedBasic", 450),
   ("line6_overnightsP1", 200), ("line6_overnightsP2", 165),
   ("line7_pctP1", 40 / 73), ("line7_pctP2", 33 / 73),
   ("line8_p1ShareAdjustedBasic", 675 / 2), ("line8_p2ShareAdjustedBasic", 225 / 2),
   ("line9_p1Theoretical", 22275 / 146), ("line9_p2Theoretical", 4500 / 73),
   ("line10_p1Adjustment", 0), ("line10_p2Adjustment", 0),
   ("line11_p1AfterAdjustment", 22275 / 146), ("line11_p2AfterAdjustment", 4500 / 73),
   ("line13_totalAddOns", 0), ("line13_p1Share", 0), ("line13_p2Share", 0),
   ("line14_p1Total", 22275 / 146), ("line14_p2Total", 4500 / 73),
   ("line15_p1DirectPay", 0), ("line15_p2DirectPay", 0),
   ("line15_p1Recommended", 22275 / 146), ("line15_p2Recommended", 4500 / 73),
   ("line16_beforeCap", 13275 / 146)]

/-- The basic slice produced for `demoRedirectInputs` on `oneRowSchedule`. -/
def demoRedirectBasic : BasicResult :=
  { path := "WorksheetB"
    basicStatus := LookupStatus.atOrBelowMinimum
    basic := some 300
    usedRowIncome := some 10000
    p1AAI := 900, p2AAI := 300, combinedAAI := 1200
    p1Share := 3 / 4, p2Share := 1 / 4 }

/-! ## Helper lemmas -/

lemma ceilingIndex_eq_none_iff (l : List ℚ) (t : ℚ) :
    ceilingIndex l t = none ↔ ∀ x ∈ l, x < t := by
  induction l with
  | nil => simp [ceilingIndex]
  | cons x rest ih =>
    by_cases h : t ≤ x
    · simp only [ceilingIndex, if_pos h]
      constructor
      · intro hc; cases hc
      · intro hall
        exact absurd (hall x (List.mem_cons_self x rest)) (not_lt.mpr h)
    · simp only [ceilingIndex, if_neg h, Option.map_eq_none', ih]
      constructor
      · intro hall y hy
        rcases List.mem_cons.mp hy with rfl | hy2
        · exact lt_of_not_le h
        · exact hall y hy2
      · intro hall y hy
        exact hall y (List.mem_cons_of_mem x hy)

lemma ceilingIndex_eq_some_of (l : List ℚ) (t : ℚ) (i : ℕ)
    (hi : i < l.length) (hx : t ≤ l.getD i 0)
    (hj : ∀ j, j < i → l.getD j 0 < t) :
    ceilingIndex l t = some i := by
  induction l generalizing i with
  | nil => simp at hi
  | cons x rest ih =>
    by_cases h : t ≤ x
    · cases i with
      | zero => simp [ceilingIndex, h]
      | succ k =>
        exact absurd (by simpa using hj 0 (Nat.succ_pos k) : x < t) (not_lt.mpr h)
    · cases i with
      | zero => exact absurd (by simpa using hx : t ≤ x) h
      | succ k =>
        have hk := ih k (by simpa using hi) (by simpa using hx)
          (fun j hjk => by simpa using hj (j + 1) (Nat.succ_lt_succ hjk))
        simp [ceilingIndex, if_neg h, hk]

lemma ceilingIndex_lt_length (l : List ℚ) (t : ℚ) (i : ℕ)
    (h : ceilingIndex l t = some i) : i < l.length := by
  induction l generalizing i with
  | nil => simp [ceilingIndex] at h
  | cons x rest ih =>
    by_cases hx : t ≤ x
    · simp only [ceilingIndex, if_pos hx, Option.some_inj] at h
      subst h; simp
    · simp only [ceilingIndex, if_neg hx, Option.map_eq_some'] at h
      obtain ⟨k, hk, rfl⟩ := h
      simpa using Nat.succ_lt_succ (ih k hk)

lemma getElem?_eq_some_getD (l : List ℚ) (i : ℕ) (h : i < l.length) :
    l[i]? = some (l.getD i 0) := by
  induction l generalizing i with
  | nil => simp at h
  | cons x rest ih =>
    cases i with
    | zero => simp
    | succ k => simpa using ih k (by simpa using h)

lemma validateSchedule_eq_ok (s : Schedule)
    (h1 : s.combinedMonthlyIncome ≠ [])
    (h2 : strictlyAscending s.combinedMonthlyIncome = true)
    (h3 : ∀ p ∈ s.byChildren, p.2.length = s.combinedMonthlyIncome.length) :
    validateSchedule s = Except.ok () := by
  have he : s.combinedMonthlyIncome.isEmpty = false := by
    simpa [List.isEmpty_iff] using h1
  have ha : (s.byChildren.all
      (fun p => p.2.length == s.combinedMonthlyIncome.length)) = true := by
    rw [List.all_eq_true]
    intro p hp
    simpa using h3 p hp
  simp [validateSchedule, he, h2, ha]

lemma findColumn_length (s : Schedule) (n : ℕ) (col : List ℚ)
    (h3 : ∀ p ∈ s.byChildren, p.2.length = s.combinedMonthlyIncome.length)
    (h4 : findColumn s n = some col) :
    col.length = s.combinedMonthlyIncome.length := by
  unfold findColumn at h4
  rw [Option.map_eq_some'] at h4
  obtain ⟨p, hp, rfl⟩ := h4
  exact h3 p (List.mem_of_find?_eq_some hp)

/-! ## Claim theorems -/

/-- Claim C5: `splitByShare(total, p1Share)` returns `p1 = total × p1Share` and
`p2 = total − p1`, and the two parts always sum exactly to `total`
(`src/addons.ts` lines 35-39). -/
theorem claim_C5 (total p1Share : ℚ) :
    (splitByShare total p1Share).p1 = total * p1Share ∧
    (splitByShare total p1Share).p2 = total - total * p1Share ∧
    (splitByShare total p1Share).p1 + (splitByShare total p1Share).p2 = total := by
  refine ⟨rfl, rfl, ?_⟩
  simp [splitByShare]

/-- Claim C1: The 92-109 overnight adjustment: inside the band the line-10
reduction is `t × (110 − n)/18` (so the post-adjustment line 11 is
`t − t×(110−n)/18`), and at ≥ 110 nights the reduction is exactly zero —
but below 92 nights the code returns the *full* theoretical amount as the
reduction, so the post-adjustment obligation (line 11) collapses to 0
instead of the full theoretical amount claimed by the spec and by the
own doc comment of the function.  Evaluated at theoretical = 100, overnights = 50:
the reduction is 100 and line 11 is 0, not 100. -/
theorem claim_C1_adjustment (t n : ℚ) :
    (92 ≤ n → n ≤ 109 → overnightAdjustmentAmount t n = t * ((110 - n) / 18) ∧
      (0 ≤ t → max 0 (t - overnightAdjustmentAmount t n) = t - t * ((110 - n) / 18))) ∧
    (110 ≤ n → overnightAdjustmentAmount t n = 0) ∧
    (overnightAdjustmentAmount 100 50 = 100 ∧
      max 0 ((100 : ℚ) - overnightAdjustmentAmount 100 50) = 0) := by
  refine ⟨?_, ?_, ?_, ?_⟩
  · intro h92 h109
    have hlt : ¬ n ≥ 110 := by linarith
    have hge : ¬ n < 92 := by linarith
    have hdiff : ¬ (110 - n ≤ 0) := by linarith
    constructor
    · simp [overnightAdjustmentAmount, hlt, hge, hdiff]
    · intro ht
      have hband : t * ((110 - n) / 18) ≤ t := by
        have hfrac : (110 - n) / 18 ≤ 1 := by linarith [(by linarith : 110 - n ≤ 18)]
        nlinarith
      simp only [overnightAdjustmentAmount, if_neg hlt, if_neg hge, if_neg hdiff]
      exact max_eq_right (by linarith)
  · intro h110
    simp [overnightAdjustmentAmount, (by linarith : n ≥ 110)]
  · norm_num [overnightAdjustmentAmount]
  · norm_num [overnightAdjustmentAmount]

/-- Witness for C1: instantiates the band case at theoretical 90,
overnights 101 (reduction 45, post-adjustment 45). -/
theorem claim_C1_adjustment_witness :
    overnightAdjustmentAmount 90 101 = 90 * ((110 - 101) / 18) ∧
    max 0 ((90 : ℚ) - overnightAdjustmentAmount 90 101) = 90 - 90 * ((110 - 101) / 18) := by
  have h := (claim_C1_adjustment 90 101).1 (by norm_num) (by norm_num)
  exact ⟨h.1, h.2 (by norm_num)⟩

/-- Claim C2: For a table with strictly ascending breakpoints, aligned columns,
and a column for the requested child count, `lookupBasicObligation` selects
the smallest breakpoint ≥ `combinedIncome` and returns the amount of that row,
reporting `atOrBelowMinimum` exactly when the selected row is the first and
`ok` otherwise; when the income exceeds every breakpoint it returns
`aboveTop` with a null amount and no row (`src/schedule.ts` lines 140-199). -/
theorem claim_C2 (s : Schedule) (income : ℚ) (n : ℕ) (col : List ℚ)
    (h1 : s.combinedMonthlyIncome ≠ [])
    (h2 : strictlyAscending s.combinedMonthlyIncome = true)
    (h3 : ∀ p ∈ s.byChildren, p.2.length = s.combinedMonthlyIncome.length)
    (h4 : findColumn s n = some col) :
    ((∀ x ∈ s.combinedMonthlyIncome, x < income) →
      lookupBasicObligation s income n =
        Except.ok { status := LookupStatus.aboveTop, amount := none,
                    usedRowIndex := none, usedRowIncome := none }) ∧
    (∀ i, i < s.combinedMonthlyIncome.length →
      income ≤ s.combinedMonthlyIncome.getD i 0 →
      (∀ j, j < i → s.combinedMonthlyIncome.getD j 0 < income) →
      lookupBasicObligation s income n =
        Except.ok { status := if i = 0 then LookupStatus.atOrBelowMinimum
                              else LookupStatus.ok,
                    amount := some (col.getD i 0),
                    usedRowIndex := some i,
                    usedRowIncome := some (s.combinedMonthlyIncome.getD i 0) }) := by
  have hval := validateSchedule_eq_ok s h1 h2 h3
  constructor
  · intro hall
    have hc : ceilingIndex s.combinedMonthlyIncome income = none :=
      (ceilingIndex_eq_none_iff _ _).mpr hall
    simp [lookupBasicObligation, hval, hc]
  · intro i hi hx hj
    have hc : ceilingIndex s.combinedMonthlyIncome income = some i :=
      ceilingIndex_eq_some_of _ _ i hi hx hj
    have hcollen : col.length = s.combinedMonthlyIncome.length :=
      findColumn_length s n col h3 h4
    have hamount : col[i]? = some (col.getD i 0) :=
      getElem?_eq_some_getD col i (hcollen ▸ hi)
    have hrow : s.combinedMonthlyIncome[i]? =
        some (s.combinedMonthlyIncome.getD i 0) :=
      getElem?_eq_some_getD _ i hi
    simp only [lookupBasicObligation, hval, hc, h4, hamount, hrow]
    by_cases hzero : i = 0
    · subst hzero
      have hhead : s.combinedMonthlyIncome.headD 0 =
          s.combinedMonthlyIncome.getD 0 0 := by
        cases s.combinedMonthlyIncome with
        | nil => rfl
        | cons a l => rfl
      have hcond : (0 = 0 ∧ income ≤ s.combinedMonthlyIncome.headD 0) :=
        ⟨rfl, by rw [hhead]; exact hx⟩
      rw [if_pos hcond, if_pos rfl]
    · have hcond : ¬ (i = 0 ∧ income ≤ s.combinedMonthlyIncome.headD 0) := by
        intro hcontra; exact hzero hcontra.1
      rw [if_neg hcond, if_neg hzero]

/-- Witness for C2: on the demo table, income 1600 with 2 children selects
the 2000 row (index 1) with amount 300 and status `ok`. -/
theorem claim_C2_witness :
    lookupBasicObligation demoSchedule 1600 2 =
      Except.ok { status := LookupStatus.ok, amount := some 300,
                  usedRowIndex := some 1, usedRowIncome := some 2000 } := by
  have h := (claim_C2 demoSchedule 1600 2 [200, 300, 400]
      (by decide) (by decide) (by decide) rfl).2 1
      (by decide) (by norm_num [demoSchedule]) (by decide)
  simpa [demoSchedule] using h

/-- Claim C9: Structural/configuration defects always raise an error:
non-ascending breakpoints or misaligned columns make
`lookupBasicObligation` fail (`src/schedule.ts` lines 112-130), a missing
requested column with in-table income raises the unsupported-child-count
error (`src/schedule.ts` line 186), and each pipeline throws when called
with the wrong custody type (`src/calc.ts` lines 348-350, 409-411, 526-528;
`src/shared.ts` lines 171-173). -/
theorem claim_C9 :
    (∀ s : Schedule, ∀ inc : ℚ, ∀ n : ℕ,
      strictlyAscending s.combinedMonthlyIncome = false →
      ∃ e, lookupBasicObligation s inc n = Except.error e) ∧
    (∀ s : Schedule, ∀ inc : ℚ, ∀ n : ℕ, ∀ p ∈ s.byChildren,
      p.2.length ≠ s.combinedMonthlyIncome.length →
      ∃ e, lookupBasicObligation s inc n = Except.error e) ∧
    (∀ s : Schedule, ∀ inc : ℚ, ∀ n : ℕ,
      s.combinedMonthlyIncome ≠ [] →
      strictlyAscending s.combinedMonthlyIncome = true →
      (∀ p ∈ s.byChildren, p.2.length = s.combinedMonthlyIncome.length) →
      findColumn s n = none → (∃ x ∈ s.combinedMonthlyIncome, inc ≤ x) →
      lookupBasicObligation s inc n =
        Except.error "Schedule has no column for requested children.") ∧
    (∀ inputs : CaseInputs, ∀ schedule : Schedule,
      inputs.custodyType ≠ CustodyType.PRIMARY →
      (∃ e, computePrimaryTotals inputs schedule = Except.error e) ∧
      (∃ e, computePrimaryFinal inputs schedule = Except.error e)) ∧
    (∀ inputs : CaseInputs, ∀ schedule : Schedule,
      inputs.custodyType ≠ CustodyType.SHARED →
      (∃ e, sharedStarter inputs schedule = Except.error e) ∧
      (∃ e, computeSharedFinal inputs schedule = Except.error e)) := by
  refine ⟨?_, ?_, ?_, ?_, ?_⟩
  · intro s inc n h
    have hne : s.combinedMonthlyIncome ≠ [] := by
      intro hnil
      rw [hnil] at h
      simp [strictlyAscending] at h
    have he : s.combinedMonthlyIncome.isEmpty = false := by
      simpa [List.isEmpty_iff] using hne
    exact ⟨"combinedMonthlyIncome must be strictly ascending.",
      by simp [lookupBasicObligation, validateSchedule, he, h]⟩
  · intro s inc n p hp hlen
    by_cases he : s.combinedMonthlyIncome.isEmpty
    · exact ⟨"Schedule has no income rows.",
        by simp [lookupBasicObligation, validateSchedule, he]⟩
    by_cases ha : strictlyAscending s.combinedMonthlyIncome = true
    · cases hb : s.byChildren.all
          (fun q => q.2.length == s.combinedMonthlyIncome.length) with
      | true =>
        exact absurd (by simpa using List.all_eq_true.mp hb p hp) hlen
      | false =>
        exact ⟨"byChildren column length != incomes length",
          by simp [lookupBasicObligation, validateSchedule, he, ha, hb]⟩
    · rw [Bool.not_eq_true] at ha
      exact ⟨"combinedMonthlyIncome must be strictly ascending.",
        by simp [lookupBasicObligation, validateSchedule, he, ha]⟩
  · intro s inc n h1 h2 h3 hcol hin
    have hval := validateSchedule_eq_ok s h1 h2 h3
    cases hco : ceilingIndex s.combinedMonthlyIncome inc with
    | none =>
      obtain ⟨x, hx, hix⟩ := hin
      exact absurd ((ceilingIndex_eq_none_iff _ _).mp hco x hx) (not_lt.mpr hix)
    | some idx =>
      simp [lookupBasicObligation, hval, hco, hcol]
  · intro inputs schedule h
    exact ⟨⟨_, by rw [computePrimaryTotals, if_pos h]⟩,
           ⟨_, by rw [computePrimaryFinal, if_pos h]⟩⟩
  · intro inputs schedule h
    exact ⟨⟨_, by rw [sharedStarter, if_pos h]⟩,
           ⟨_, by rw [computeSharedFinal, if_pos h]⟩⟩

/-- Witness for C9: concrete structurally broken tables and wrong-custody
calls all produce errors. -/
theorem claim_C9_witness :
    (∃ e, lookupBasicObligation badAscSchedule 500 1 = Except.error e) ∧
    (∃ e, lookupBasicObligation mismatchSchedule 500 2 = Except.error e) ∧
    (lookupBasicObligation demoSchedule 1600 3 =
      Except.error "Schedule has no column for requested children.") ∧
    (∃ e, computePrimaryTotals demoSharedInputs oneRowSchedule = Except.error e) ∧
    (∃ e, computePrimaryFinal demoSharedInputs oneRowSchedule = Except.error e) ∧
    (∃ e, sharedStarter demoPrimaryInputs demoSchedule = Except.error e) ∧
    (∃ e, computeSharedFinal demoPrimaryInputs demoSchedule = Except.error e) := by
  refine ⟨claim_C9.1 badAscSchedule 500 1 (by decide),
          claim_C9.2.1 mismatchSchedule 500 2 (2, [100, 200]) (by decide) (by decide),
          claim_C9.2.2.1 demoSchedule 1600 3 (by decide) (by decide) (by decide)
            rfl ⟨2000, by decide, by norm_num⟩,
          (claim_C9.2.2.2.1 demoSharedInputs oneRowSchedule (by decide)).1,
          (claim_C9.2.2.2.1 demoSharedInputs oneRowSchedule (by decide)).2,
          (claim_C9.2.2.2.2 demoPrimaryInputs demoSchedule (by decide)).1,
          (claim_C9.2.2.2.2 demoPrimaryInputs demoSchedule (by decide)).2⟩

lemma lookup_aboveTop_amount_none (s : Schedule) (inc : ℚ) (n : ℕ)
    (res : LookupResult)
    (h : lookupBasicObligation s inc n = Except.ok res)
    (hs : res.status = LookupStatus.aboveTop) : res.amount = none := by
  cases hval : validateSchedule s with
  | error e => simp [lookupBasicObligation, hval] at h
  | ok u =>
    cases u
    simp only [lookupBasicObligation, hval] at h
    cases hco : ceilingIndex s.combinedMonthlyIncome inc with
    | none =>
      rw [hco] at h
      rw [← Except.ok.inj h]
    | some idx =>
      rw [hco] at h
      cases hfc : findColumn s n with
      | none => rw [hfc] at h; exact Except.noConfusion h
      | some col =>
        rw [hfc] at h
        rw [← Except.ok.inj h] at hs
        split at hs <;> exact LookupStatus.noConfusion hs

lemma lookup_ok_noColumn (s : Schedule) (inc : ℚ) (n : ℕ) (res : LookupResult)
    (hval : validateSchedule s = Except.ok ())
    (hcol : findColumn s n = none)
    (h : lookupBasicObligation s inc n = Except.ok res) :
    res.amount = none := by
  simp only [lookupBasicObligation, hval] at h
  cases hco : ceilingIndex s.combinedMonthlyIncome inc with
  | none =>
    rw [hco] at h
    rw [← Except.ok.inj h]
  | some idx =>
    rw [hco, hcol] at h
    exact Except.noConfusion h

/-- Claim C4: `multifamilyAllowance` returns 0 for a non-positive in-home child
count; otherwise 0.75 × base × count, with base drawn from the one-child
lookup on the own income of the parent, falling back to the last one-child entry
when that lookup is above-top; with no one-child column at all it errors
(`src/multifamily.ts` lines 20-45). -/
theorem claim_C4 (s : Schedule) (parent : ParentIncome)
    (h1 : s.combinedMonthlyIncome ≠ [])
    (h2 : strictlyAscending s.combinedMonthlyIncome = true)
    (h3 : ∀ p ∈ s.byChildren, p.2.length = s.combinedMonthlyIncome.length) :
    (parent.multifamilyChildrenInHome ≤ 0 →
      multifamilyAllowance s parent = Except.ok 0) ∧
    (0 < parent.multifamilyChildrenInHome →
      (∀ res a, lookupBasicObligation s parent.actualMonthly 1 = Except.ok res →
        res.amount = some a →
        multifamilyAllowance s parent =
          Except.ok (3 / 4 * a * (parent.multifamilyChildrenInHome : ℚ))) ∧
      (∀ res col lastA,
        lookupBasicObligation s parent.actualMonthly 1 = Except.ok res →
        res.status = LookupStatus.aboveTop →
        findColumn s 1 = some col → col.getLast? = some lastA →
        multifamilyAllowance s parent =
          Except.ok (3 / 4 * lastA * (parent.multifamilyChildrenInHome : ℚ))) ∧
      (findColumn s 1 = none →
        ∃ e, multifamilyAllowance s parent = Except.error e)) := by
  have hval := validateSchedule_eq_ok s h1 h2 h3
  refine ⟨?_, ?_⟩
  · intro hcnt
    unfold multifamilyAllowance
    rw [if_pos hcnt]
  · intro hcnt
    have hcnt2 : ¬ (parent.multifamilyChildrenInHome ≤ 0) := not_le.mpr hcnt
    refine ⟨?_, ?_, ?_⟩
    · intro res a hlook ham
      simp only [multifamilyAllowance, if_neg hcnt2, hlook, ham]
    · intro res col lastA hlook hstat hfc hlast
      have ham : res.amount = none :=
        lookup_aboveTop_amount_none s parent.actualMonthly 1 res hlook hstat
      simp only [multifamilyAllowance, if_neg hcnt2, hlook, ham, hfc, hlast]
    · intro hfc
      cases hl : lookupBasicObligation s parent.actualMonthly 1 with
      | error e =>
        exact ⟨e, by simp only [multifamilyAllowance, if_neg hcnt2, hl]⟩
      | ok res =>
        have ham : res.amount = none :=
          lookup_ok_noColumn s parent.actualMonthly 1 res hval hfc hl
        exact ⟨"Schedule missing one-child column for multifamily allowance.",
          by simp only [multifamilyAllowance, if_neg hcnt2, hl, ham, hfc]⟩

/-- Witness for C4: a parent earning 6000 (above the demo table top) with two
in-home children receives the fallback allowance 0.75 × 350 × 2 = 525. -/
theorem claim_C4_witness :
    multifamilyAllowance demoSchedule
      { plainIncome 6000 with multifamilyChildrenInHome := 2 } =
      Except.ok 525 := by
  have h := ((claim_C4 demoSchedule
      { plainIncome 6000 with multifamilyChildrenInHome := 2 }
      (by decide) (by decide) (by decide)).2 (by decide)).2.1
      { status := LookupStatus.aboveTop, amount := none,
        usedRowIndex := none, usedRowIncome := none }
      [150, 250, 350] 350 rfl rfl rfl rfl
  rw [h]
  norm_num

lemma computeBasic_override (inputs : CaseInputs) (schedule : Schedule)
    (pc : Parent) (base : BasicResult)
    (h : computeBasic inputs schedule = Except.ok base) :
    computeBasic { inputs with custodyType := CustodyType.PRIMARY,
                               primaryCustodian := pc } schedule =
      Except.ok { base with path := "WorksheetA" } := by
  cases hm1 : multifamilyAllowance schedule inputs.parent1 with
  | error e => simp [computeBasic, hm1] at h
  | ok m1 =>
    cases hm2 : multifamilyAllowance schedule inputs.parent2 with
    | error e => simp [computeBasic, hm1, hm2] at h
    | ok m2 =>
      cases hlk : lookupBasicObligation schedule
          (adjustedActualIncome inputs.parent1 m1 +
            adjustedActualIncome inputs.parent2 m2)
          inputs.numChildrenThisCase with
      | error e => simp [computeBasic, hm1, hm2, hlk] at h
      | ok basicRes =>
        simp only [computeBasic, hm1, hm2, hlk] at h ⊢
        rw [← Except.ok.inj h]
        simp

lemma computePrimaryTotals_main (inputs : CaseInputs) (schedule : Schedule)
    (base : BasicResult) (b : ℚ)
    (hc : inputs.custodyType = CustodyType.PRIMARY)
    (hb : computeBasic inputs schedule = Except.ok base)
    (hsome : base.basic = some b)
    (hst : base.basicStatus ≠ LookupStatus.aboveTop) :
    computePrimaryTotals inputs schedule =
      Except.ok (primaryMainTotals inputs base b) := by
  unfold computePrimaryTotals
  rw [if_neg (by simp [hc])]
  simp only [hb, hsome]
  rw [if_neg hst]

lemma computePrimaryFinal_main (inputs : CaseInputs) (schedule : Schedule)
    (base : BasicResult) (b : ℚ)
    (hc : inputs.custodyType = CustodyType.PRIMARY)
    (hb : computeBasic inputs schedule = Except.ok base)
    (hsome : base.basic = some b)
    (hst : base.basicStatus ≠ LookupStatus.aboveTop) :
    computePrimaryFinal inputs schedule =
      Except.ok (primaryMainFinal inputs (primaryMainTotals inputs base b)) := by
  unfold computePrimaryFinal
  rw [if_neg (by simp [hc])]
  rw [computePrimaryTotals_main inputs schedule base b hc hb hsome hst]
  simp only []
  rw [if_neg (by simp [primaryMainTotals])]

lemma primary_rerun (inputs : CaseInputs) (schedule : Schedule)
    (base : BasicResult) (b : ℚ) (pc : Parent)
    (hb : computeBasic inputs schedule = Except.ok base)
    (hsome : base.basic = some b)
    (hst : base.basicStatus ≠ LookupStatus.aboveTop) :
    computePrimaryFinal
        { inputs with custodyType := CustodyType.PRIMARY,
                      primaryCustodian := pc } schedule =
      Except.ok (primaryMainFinal
        { inputs with custodyType := CustodyType.PRIMARY, primaryCustodian := pc }
        (primaryMainTotals
          { inputs with custodyType := CustodyType.PRIMARY, primaryCustodian := pc }
          { base with path := "WorksheetA" } b)) := by
  have hb2 := computeBasic_override inputs schedule pc base hb
  exact computePrimaryFinal_main _ schedule _ b rfl hb2
    (by simpa using hsome) (by simpa using hst)

lemma computePrimaryFinal_ok_inv (inputs : CaseInputs) (schedule : Schedule)
    (r : PrimaryFinalResult)
    (h : computePrimaryFinal inputs schedule = Except.ok r) :
    ∃ t, computePrimaryTotals inputs schedule = Except.ok t ∧
      ((t.advisory = some Advisory.aboveTopOfSchedule ∧ r = primaryAdvisoryFinal t) ∨
       (t.advisory ≠ some Advisory.aboveTopOfSchedule ∧ r = primaryMainFinal inputs t)) := by
  unfold computePrimaryFinal at h
  by_cases hc : inputs.custodyType ≠ CustodyType.PRIMARY
  · rw [if_pos hc] at h; exact Except.noConfusion h
  · rw [if_neg hc] at h
    cases ht : computePrimaryTotals inputs schedule with
    | error e => rw [ht] at h; exact Except.noConfusion h
    | ok t =>
      rw [ht] at h
      have h2 : (if t.advisory = some Advisory.aboveTopOfSchedule then
            Except.ok (primaryAdvisoryFinal t)
          else Except.ok (primaryMainFinal inputs t)) = Except.ok r := h
      by_cases ha : t.advisory = some Advisory.aboveTopOfSchedule
      · rw [if_pos ha] at h2
        exact ⟨t, rfl, Or.inl ⟨ha, (Except.ok.inj h2).symm⟩⟩
      · rw [if_neg ha] at h2
        exact ⟨t, rfl, Or.inr ⟨ha, (Except.ok.inj h2).symm⟩⟩

lemma computeSharedFinal_computed_inv (inputs : CaseInputs)
    (schedule : Schedule) (payor : Option Parent) (rec : ℚ)
    (note : Option String) (ws : List (String × ℚ)) (cap : Option CapInfo)
    (h : computeSharedFinal inputs schedule =
      Except.ok (SharedFinalResult.computed payor rec note ws cap)) :
    ∃ starter, sharedStarter inputs schedule = Except.ok starter ∧
      starter.advisory ≠ some Advisory.aboveTopOfSchedule ∧
      starter.redirectToWorksheetA = false ∧
      sharedComputedStage inputs schedule starter =
        Except.ok (SharedFinalResult.computed payor rec note ws cap) := by
  unfold computeSharedFinal at h
  by_cases hc : inputs.custodyType ≠ CustodyType.SHARED
  · rw [if_pos hc] at h; exact Except.noConfusion h
  · rw [if_neg hc] at h
    cases hs : sharedStarter inputs schedule with
    | error e => rw [hs] at h; exact Except.noConfusion h
    | ok starter =>
      simp only [hs] at h
      by_cases ha : starter.advisory = some Advisory.aboveTopOfSchedule
      · have h2 := h
        rw [if_pos ha] at h2
        exact SharedFinalResult.noConfusion (Except.ok.inj h2)
      · by_cases hr : starter.redirectToWorksheetA
        · have h2 := h
          rw [if_neg ha, if_pos hr] at h2
          cases hpr : computePrimaryFinal
              { inputs with custodyType := CustodyType.PRIMARY
                            primaryCustodian :=
                              determinePrimaryCustodianFromOvernights
                                starter.overnightsP1 } schedule with
          | error e => simp only [hpr] at h2; exact Except.noConfusion h2
          | ok pr =>
            simp only [hpr] at h2
            exact SharedFinalResult.noConfusion (Except.ok.inj h2)
        · have h2 := h
          rw [if_neg ha, if_neg hr] at h2
          exact ⟨starter, rfl, ha, Bool.not_eq_true _ ▸ hr, h2⟩

lemma sharedStarter_computed_inv (inputs : CaseInputs) (schedule : Schedule)
    (starter : SharedStarterResult)
    (hs : sharedStarter inputs schedule = Except.ok starter)
    (ha : starter.advisory ≠ some Advisory.aboveTopOfSchedule)
    (hr : starter.redirectToWorksheetA = false) :
    ∃ base b, computeBasic inputs schedule = Except.ok base ∧
      base.basic = some b ∧ base.basicStatus ≠ LookupStatus.aboveTop ∧
      meetsSharedThreshold inputs.overnightsParent1 = true ∧
      starter =
        { advisory := none
          redirectToWorksheetA := false
          basic := some b, adjustedBasic := some (adjustedBasic b)
          usedRowIncome := base.usedRowIncome
          p1AAI := base.p1AAI, p2AAI := base.p2AAI
          combinedAAI := base.combinedAAI
          p1Share := base.p1Share, p2Share := base.p2Share
          overnightsP1 := inputs.overnightsParent1
          overnightPctP1 := some (overnightPercents inputs.overnightsParent1).1
          overnightPctP2 := some (overnightPercents inputs.overnightsParent1).2 } := by
  unfold sharedStarter at hs
  by_cases hc : inputs.custodyType ≠ CustodyType.SHARED
  · rw [if_pos hc] at hs; exact Except.noConfusion hs
  · rw [if_neg hc] at hs
    cases hb : computeBasic inputs schedule with
    | error e => simp only [hb] at hs; exact Except.noConfusion hs
    | ok base =>
      simp only [hb] at hs
      cases hbb : base.basic with
      | none =>
        simp only [hbb] at hs
        rw [← Except.ok.inj hs] at ha
        simp at ha
      | some b =>
        simp only [hbb] at hs
        by_cases hst : base.basicStatus = LookupStatus.aboveTop
        · have hs2 := hs
          rw [if_pos hst] at hs2
          rw [← Except.ok.inj hs2] at ha
          simp at ha
        · have hs2 := hs
          rw [if_neg hst] at hs2
          by_cases hth : meetsSharedThreshold inputs.overnightsParent1
          · have hs3 := hs2
            rw [if_neg (by simpa using hth)] at hs3
            exact ⟨base, b, rfl, hbb, hst, hth, (Except.ok.inj hs3).symm⟩
          · have hs3 := hs2
            rw [if_pos (by simpa using hth)] at hs3
            rw [← Except.ok.inj hs3] at hr
            simp at hr

lemma sharedComputedStage_inv (inputs : CaseInputs) (schedule : Schedule)
    (starter : SharedStarterResult) (payor : Option Parent) (rec : ℚ)
    (note : Option String) (ws : List (String × ℚ)) (cap : Option CapInfo)
    (h : sharedComputedStage inputs schedule starter =
      Except.ok (SharedFinalResult.computed payor rec note ws cap)) :
    payor = (sharedNet (mkSharedWork inputs starter).diff).1 ∧
    note = (mkSharedWork inputs starter).note ∧
    ws = sharedWorksheet (mkSharedWork inputs starter)
      (sharedNet (mkSharedWork inputs starter).diff).1
      (sharedNet (mkSharedWork inputs starter).diff).2 := by
  unfold sharedComputedStage at h
  cases hnet : (sharedNet (mkSharedWork inputs starter).diff).1 with
  | none =>
    simp only [hnet] at h
    obtain ⟨hp, hrec, hnote, hws, hcap⟩ :=
      SharedFinalResult.computed.inj (Except.ok.inj h)
    exact ⟨hp.symm, hnote.symm, hws.symm⟩
  | some p =>
    simp only [hnet] at h
    cases hpr : computePrimaryFinal
        { inputs with custodyType := CustodyType.PRIMARY
                      primaryCustodian := otherParent p } schedule with
    | error e => simp only [hpr] at h; exact Except.noConfusion h
    | ok pr =>
      simp only [hpr] at h
      cases h9 : pr.line9_recommendedOrder with
      | some a =>
        simp only [h9] at h
        obtain ⟨hp, hrec, hnote, hws, hcap⟩ :=
          SharedFinalResult.computed.inj (Except.ok.inj h)
        exact ⟨hp.symm, hnote.symm, hws.symm⟩
      | none =>
        simp only [h9] at h
        obtain ⟨hp, hrec, hnote, hws, hcap⟩ :=
          SharedFinalResult.computed.inj (Except.ok.inj h)
        exact ⟨hp.symm, hnote.symm, hws.symm⟩

lemma sharedComputedStage_payor_inv (inputs : CaseInputs) (schedule : Schedule)
    (starter : SharedStarterResult) (p : Parent) (rec : ℚ)
    (note : Option String) (ws : List (String × ℚ)) (cap : Option CapInfo)
    (pr : PrimaryFinalResult) (a : ℚ)
    (h : sharedComputedStage inputs schedule starter =
      Except.ok (SharedFinalResult.computed (some p) rec note ws cap))
    (hpr : computePrimaryFinal
      { inputs with custodyType := CustodyType.PRIMARY,
                    primaryCustodian := otherParent p } schedule = Except.ok pr)
    (h9 : pr.line9_recommendedOrder = some a) :
    rec = min (sharedNet (mkSharedWork inputs starter).diff).2 a ∧
    cap = some { before := (sharedNet (mkSharedWork inputs starter).diff).2,
                 after := rec, primary := some a } := by
  unfold sharedComputedStage at h
  cases hnet : (sharedNet (mkSharedWork inputs starter).diff).1 with
  | none =>
    simp only [hnet] at h
    obtain ⟨hp, _, _, _, _⟩ := SharedFinalResult.computed.inj (Except.ok.inj h)
    exact Option.noConfusion hp
  | some q =>
    simp only [hnet] at h
    by_cases hq : q = p
    · subst hq
      simp only [hpr, h9] at h
      obtain ⟨hp, hrec, hnote, hws, hcap⟩ :=
        SharedFinalResult.computed.inj (Except.ok.inj h)
      refine ⟨hrec.symm, ?_⟩
      rw [← hcap, ← hrec]
    · exfalso
      cases hpr2 : computePrimaryFinal
          { inputs with custodyType := CustodyType.PRIMARY
                        primaryCustodian := otherParent q } schedule with
      | error e => simp only [hpr2] at h; exact Except.noConfusion h
      | ok pr2 =>
        simp only [hpr2] at h
        cases h92 : pr2.line9_recommendedOrder with
        | some a2 =>
          simp only [h92] at h
          obtain ⟨hp, _, _, _, _⟩ :=
            SharedFinalResult.computed.inj (Except.ok.inj h)
          exact hq (Option.some.inj hp)
        | none =>
          simp only [h92] at h
          obtain ⟨hp, _, _, _, _⟩ :=
            SharedFinalResult.computed.inj (Except.ok.inj h)
          exact hq (Option.some.inj hp)

lemma shared_cap_master (inputs : CaseInputs) (schedule : Schedule)
    (p : Parent) (rec : ℚ) (note : Option String) (ws : List (String × ℚ))
    (cap : Option CapInfo)
    (h : computeSharedFinal inputs schedule =
      Except.ok (SharedFinalResult.computed (some p) rec note ws cap)) :
    ∃ pr a before,
      computePrimaryFinal
          { inputs with custodyType := CustodyType.PRIMARY,
                        primaryCustodian := otherParent p } schedule =
        Except.ok pr ∧
      pr.line9_recommendedOrder = some a ∧
      rec = min before a ∧
      cap = some { before := before, after := rec, primary := some a } := by
  obtain ⟨starter, hs, ha, hr, hstage⟩ :=
    computeSharedFinal_computed_inv inputs schedule (some p) rec note ws cap h
  obtain ⟨base, b, hbase, hbb, hbst, hth, hstarter⟩ :=
    sharedStarter_computed_inv inputs schedule starter hs ha hr
  have hrerun := primary_rerun inputs schedule base b (otherParent p) hbase hbb hbst
  obtain ⟨hrec, hcap⟩ :=
    sharedComputedStage_payor_inv inputs schedule starter p rec note ws cap
      _ _ hstage hrerun rfl
  exact ⟨_, _, _, hrerun, rfl, hrec, hcap⟩

/-- Claim C3: For every SHARED case that completes as a computed result with an
identified payor, the final recommended amount never exceeds the Worksheet A
recommended order computed for the same case with the non-payor as primary
custodian (`src/calc.ts` lines 626-645). -/
theorem claim_C3 (inputs : CaseInputs) (schedule : Schedule) (p : Parent)
    (rec : ℚ) (note : Option String) (ws : List (String × ℚ))
    (cap : Option CapInfo)
    (h : computeSharedFinal inputs schedule =
      Except.ok (SharedFinalResult.computed (some p) rec note ws cap)) :
    ∃ pr a,
      computePrimaryFinal
          { inputs with custodyType := CustodyType.PRIMARY,
                        primaryCustodian := otherParent p } schedule =
        Except.ok pr ∧
      pr.line9_recommendedOrder = some a ∧ rec ≤ a := by
  obtain ⟨pr, a, before, hpr, h9, hrec, _⟩ :=
    shared_cap_master inputs schedule p rec note ws cap h
  exact ⟨pr, a, hpr, h9, by rw [hrec]; exact min_le_right before a⟩

/-- Witness for C3: the shared demo case (payor P1, 13275/146 ≈ 90.92) is
below its Worksheet A cap (225). -/
theorem claim_C3_witness :
    ∃ pr a,
      computePrimaryFinal
          { demoSharedInputs with custodyType := CustodyType.PRIMARY,
                                  primaryCustodian := otherParent Parent.P1 }
          oneRowSchedule =
        Except.ok pr ∧
      pr.line9_recommendedOrder = some a ∧ (13275 / 146 : ℚ) ≤ a :=
  claim_C3 demoSharedInputs oneRowSchedule Parent.P1 (13275 / 146) none
    demoSharedWs
    (some { before := 13275 / 146, after := 13275 / 146, primary := some 225 })
    (by with_unfolding_all rfl)

/-- Claim C10: Whenever the shared pipeline returns a computed outcome with a
payor, the embedded Worksheet A rerun cannot be in the above-top advisory
branch: its line-9 order is a number and `capApplied` is recorded with its
before, after and primary fields (`src/calc.ts` lines 626-645). -/
theorem claim_C10 (inputs : CaseInputs) (schedule : Schedule) (p : Parent)
    (rec : ℚ) (note : Option String) (ws : List (String × ℚ))
    (cap : Option CapInfo)
    (h : computeSharedFinal inputs schedule =
      Except.ok (SharedFinalResult.computed (some p) rec note ws cap)) :
    ∃ pr a before,
      computePrimaryFinal
          { inputs with custodyType := CustodyType.PRIMARY,
                        primaryCustodian := otherParent p } schedule =
        Except.ok pr ∧
      pr.line9_recommendedOrder = some a ∧
      cap = some { before := before, after := rec, primary := some a } := by
  obtain ⟨pr, a, before, hpr, h9, _, hcap⟩ :=
    shared_cap_master inputs schedule p rec note ws cap h
  exact ⟨pr, a, before, hpr, h9, hcap⟩

/-- Witness for C10: the shared demo case records
`capApplied = { before := 13275/146, after := 13275/146, primary := 225 }`. -/
theorem claim_C10_witness :
    ∃ pr a before,
      computePrimaryFinal
          { demoSharedInputs with custodyType := CustodyType.PRIMARY,
                                  primaryCustodian := otherParent Parent.P1 }
          oneRowSchedule =
        Except.ok pr ∧
      pr.line9_recommendedOrder = some a ∧
      (some { before := 13275 / 146, after := 13275 / 146, primary := some 225 }
          : Option CapInfo) =
        some { before := before, after := (13275 / 146 : ℚ), primary := some a } :=
  claim_C10 demoSharedInputs oneRowSchedule Parent.P1 (13275 / 146) none
    demoSharedWs
    (some { before := 13275 / 146, after := 13275 / 146, primary := some 225 })
    (by with_unfolding_all rfl)

lemma wsGet_sharedWorksheet_line15_p1 (w : SharedWork) (p : Option Parent)
    (b : ℚ) :
    wsGet (sharedWorksheet w p b) "line15_p1Recommended" = some w.line15_p1 := rfl

lemma wsGet_sharedWorksheet_line15_p2 (w : SharedWork) (p : Option Parent)
    (b : ℚ) :
    wsGet (sharedWorksheet w p b) "line15_p2Recommended" = some w.line15_p2 := rfl

/-- Claim C6: Every per-parent recommended amount is floored at zero: Worksheet
A line 8 equals `max(0, obligation − direct pay)` per parent
(`src/calc.ts` lines 437-438) and is never negative, and the Worksheet B
line-15 amounts are likewise never negative (`src/calc.ts` lines 608-609). -/
theorem claim_C6 :
    (∀ inputs schedule r x,
      computePrimaryFinal inputs schedule = Except.ok r →
      (r.line8_p1Recommended = some x ∨ r.line8_p2Recommended = some x) →
      0 ≤ x) ∧
    (∀ inputs schedule r,
      computePrimaryFinal inputs schedule = Except.ok r →
      r.advisory = none →
      r.line8_p1Recommended =
        some (max 0 (r.p1Obligation.getD 0 -
          directPayTotalForParent inputs.directPay.parent1)) ∧
      r.line8_p2Recommended =
        some (max 0 (r.p2Obligation.getD 0 -
          directPayTotalForParent inputs.directPay.parent2))) ∧
    (∀ inputs schedule payor rec note ws cap x,
      computeSharedFinal inputs schedule =
        Except.ok (SharedFinalResult.computed payor rec note ws cap) →
      (wsGet ws "line15_p1Recommended" = some x ∨
        wsGet ws "line15_p2Recommended" = some x) →
      0 ≤ x) := by
  refine ⟨?_, ?_, ?_⟩
  · intro inputs schedule r x h hx
    obtain ⟨t, ht, hcase⟩ := computePrimaryFinal_ok_inv inputs schedule r h
    rcases hcase with ⟨ha, rfl⟩ | ⟨ha, rfl⟩
    · rcases hx with hx | hx <;> exact Option.noConfusion hx
    · rcases hx with hx | hx <;>
        · rw [← Option.some.inj hx]
          exact le_max_left 0 _
  · intro inputs schedule r h hadv
    obtain ⟨t, ht, hcase⟩ := computePrimaryFinal_ok_inv inputs schedule r h
    rcases hcase with ⟨ha, rfl⟩ | ⟨ha, rfl⟩
    · rw [show (primaryAdvisoryFinal t).advisory = t.advisory from rfl, ha] at hadv
      exact Option.noConfusion hadv
    · exact ⟨rfl, rfl⟩
  · intro inputs schedule payor rec note ws cap x h hx
    obtain ⟨starter, hs, ha, hr, hstage⟩ :=
      computeSharedFinal_computed_inv inputs schedule payor rec note ws cap h
    obtain ⟨hp, hn, hws⟩ :=
      sharedComputedStage_inv inputs schedule starter payor rec note ws cap hstage
    subst hws
    rcases hx with hx | hx
    · rw [wsGet_sharedWorksheet_line15_p1] at hx
      rw [← Option.some.inj hx]
      exact le_max_left 0 _
    · rw [wsGet_sharedWorksheet_line15_p2] at hx
      rw [← Option.some.inj hx]
      exact le_max_left 0 _

/-- Witness for C6: on the primary demo case, the line-8 amounts match the
floored formula and are non-negative. -/
theorem claim_C6_witness :
    (0 : ℚ) ≤ 2025 / 8 ∧
    demoPrimaryResult.line8_p1Recommended =
      some (max 0 (demoPrimaryResult.p1Obligation.getD 0 -
        directPayTotalForParent demoPrimaryInputs.directPay.parent1)) := by
  constructor
  · exact claim_C6.1 demoPrimaryInputs demoSchedule demoPrimaryResult (2025 / 8)
      (by with_unfolding_all rfl) (Or.inl (by with_unfolding_all rfl))
  · exact (claim_C6.2.1 demoPrimaryInputs demoSchedule demoPrimaryResult
      (by with_unfolding_all rfl) rfl).1

lemma calculateCase_primary (inputs : CaseInputs) (schedule : Schedule)
    (r : PrimaryFinalResult)
    (hc : inputs.custodyType = CustodyType.PRIMARY)
    (h : computePrimaryFinal inputs schedule = Except.ok r) :
    calculateCase inputs schedule = Except.ok
      { recommendedOrderParent1PaysParent2 :=
          orientAmount
            (if r.advisory = some Advisory.aboveTopOfSchedule then none
              else some (otherParent inputs.primaryCustodian))
            (r.line9_recommendedOrder.getD 0)
        payor := if r.advisory = some Advisory.aboveTopOfSchedule then none
          else some (otherParent inputs.primaryCustodian)
        path := "WorksheetA"
        worksheet := primaryWorksheetMap r
        notes := r.note.toList
        advisory := r.advisory } := by
  unfold calculateCase
  rw [hc]
  simp only [h]

/-- Claim C8: For a PRIMARY case that is not above-top, the recommended order
is the line-8 amount of the non-custodial parent, the payor is that parent,
and the signed output is that amount with positive sign when Parent 1 pays
and negative when Parent 2 pays; when the lookup is above-top the payor is
none and the signed amount is 0 (`src/calc.ts` lines 441-442, 702-739). -/
theorem claim_C8 (inputs : CaseInputs) (schedule : Schedule)
    (r : PrimaryFinalResult)
    (hc : inputs.custodyType = CustodyType.PRIMARY)
    (h : computePrimaryFinal inputs schedule = Except.ok r) :
    (r.advisory = none →
      ∃ a, (if inputs.primaryCustodian = Parent.P1 then r.line8_p2Recommended
            else r.line8_p1Recommended) = some a ∧
        r.line9_recommendedOrder = some a ∧
        ∃ out, calculateCase inputs schedule = Except.ok out ∧
          out.payor = some (otherParent inputs.primaryCustodian) ∧
          out.recommendedOrderParent1PaysParent2 =
            (if inputs.primaryCustodian = Parent.P1 then -a else a)) ∧
    (r.advisory = some Advisory.aboveTopOfSchedule →
      ∃ out, calculateCase inputs schedule = Except.ok out ∧
        out.payor = none ∧ out.recommendedOrderParent1PaysParent2 = 0) := by
  have hcc := calculateCase_primary inputs schedule r hc h
  obtain ⟨t, ht, hcase⟩ := computePrimaryFinal_ok_inv inputs schedule r h
  constructor
  · intro hadv
    rcases hcase with ⟨ha, rfl⟩ | ⟨ha, rfl⟩
    · rw [show (primaryAdvisoryFinal t).advisory = t.advisory from rfl, ha] at hadv
      exact Option.noConfusion hadv
    · rw [hadv] at hcc
      refine ⟨if inputs.primaryCustodian = Parent.P1
          then max 0 (t.p2Obligation.getD 0 -
            directPayTotalForParent inputs.directPay.parent2)
          else max 0 (t.p1Obligation.getD 0 -
            directPayTotalForParent inputs.directPay.parent1), ?_, ?_, ?_⟩
      · by_cases hp : inputs.primaryCustodian = Parent.P1 <;>
          simp [hp, primaryMainFinal]
      · by_cases hp : inputs.primaryCustodian = Parent.P1 <;>
          simp [hp, primaryMainFinal]
      · refine ⟨_, hcc, ?_, ?_⟩
        · simp
        · have h9 : (primaryMainFinal inputs t).line9_recommendedOrder.getD 0 =
              (if inputs.primaryCustodian = Parent.P1
                then max 0 (t.p2Obligation.getD 0 -
                  directPayTotalForParent inputs.directPay.parent2)
                else max 0 (t.p1Obligation.getD 0 -
                  directPayTotalForParent inputs.directPay.parent1)) := by
            by_cases hp : inputs.primaryCustodian = Parent.P1 <;>
              simp [hp, primaryMainFinal]
          simp only [h9]
          cases hp : inputs.primaryCustodian <;>
            simp [hp, orientAmount, otherParent]
  · intro hadv
    rw [hadv] at hcc
    exact ⟨_, hcc, by simp, by simp [orientAmount]⟩

/-- Witness for C8: in the primary demo case (custodian P1) the payor is
Parent 2 and the signed order is −1575/8 = −196.875. -/
theorem claim_C8_witness :
    ∃ out, calculateCase demoPrimaryInputs demoSchedule = Except.ok out ∧
      out.payor = some Parent.P2 ∧
      out.recommendedOrderParent1PaysParent2 = -(1575 / 8) := by
  obtain ⟨a, ha8, ha9, out, hout, hpay, hval⟩ :=
    (claim_C8 demoPrimaryInputs demoSchedule demoPrimaryResult rfl
      (by with_unfolding_all rfl)).1 rfl
  have haval : a = 1575 / 8 := by
    have h2 := ha8
    simp [demoPrimaryInputs, demoPrimaryResult] at h2
    exact h2.symm
  refine ⟨out, hout, ?_, ?_⟩
  · rw [hpay]; rfl
  · rw [hval, haval]
    simp [demoPrimaryInputs]

lemma sharedStarter_redirect (inputs : CaseInputs) (schedule : Schedule)
    (base : BasicResult) (b : ℚ)
    (hc : inputs.custodyType = CustodyType.SHARED)
    (hb : computeBasic inputs schedule = Except.ok base)
    (hsome : base.basic = some b)
    (hst : base.basicStatus ≠ LookupStatus.aboveTop)
    (hth : meetsSharedThreshold inputs.overnightsParent1 = false) :
    sharedStarter inputs schedule = Except.ok
      { advisory := none
        redirectToWorksheetA := true
        basic := some b, adjustedBasic := none
        usedRowIncome := base.usedRowIncome
        p1AAI := base.p1AAI, p2AAI := base.p2AAI
        combinedAAI := base.combinedAAI
        p1Share := base.p1Share, p2Share := base.p2Share
        overnightsP1 := inputs.overnightsParent1
        overnightPctP1 := none, overnightPctP2 := none } := by
  unfold sharedStarter
  rw [if_neg (by simp [hc])]
  simp only [hb, hsome]
  rw [if_neg hst, if_pos (by simp [hth])]

lemma sharedStarter_full (inputs : CaseInputs) (schedule : Schedule)
    (base : BasicResult) (b : ℚ)
    (hc : inputs.custodyType = CustodyType.SHARED)
    (hb : computeBasic inputs schedule = Except.ok base)
    (hsome : base.basic = some b)
    (hst : base.basicStatus ≠ LookupStatus.aboveTop)
    (hth : meetsSharedThreshold inputs.overnightsParent1 = true) :
    sharedStarter inputs schedule = Except.ok
      { advisory := none
        redirectToWorksheetA := false
        basic := some b, adjustedBasic := some (adjustedBasic b)
        usedRowIncome := base.usedRowIncome
        p1AAI := base.p1AAI, p2AAI := base.p2AAI
        combinedAAI := base.combinedAAI
        p1Share := base.p1Share, p2Share := base.p2Share
        overnightsP1 := inputs.overnightsParent1
        overnightPctP1 := some (overnightPercents inputs.overnightsParent1).1
        overnightPctP2 := some (overnightPercents inputs.overnightsParent1).2 } := by
  unfold sharedStarter
  rw [if_neg (by simp [hc])]
  simp only [hb, hsome]
  rw [if_neg hst, if_neg (by simp [hth])]

lemma calculateCase_redirected (inputs : CaseInputs) (schedule : Schedule)
    (pc : Parent) (pr : PrimaryFinalResult) (note : String)
    (hc : inputs.custodyType = CustodyType.SHARED)
    (h : computeSharedFinal inputs schedule =
      Except.ok (SharedFinalResult.redirected pc pr note)) :
    calculateCase inputs schedule = Except.ok
      { recommendedOrderParent1PaysParent2 :=
          orientAmount
            (if pr.advisory = some Advisory.aboveTopOfSchedule then none
              else some (otherParent pc))
            (pr.line9_recommendedOrder.getD 0)
        payor := if pr.advisory = some Advisory.aboveTopOfSchedule then none
          else some (otherParent pc)
        path := "WorksheetA"
        worksheet := primaryWorksheetMap pr
        notes := note :: pr.note.toList
        advisory := some Advisory.redirectedToWorksheetA } := by
  unfold calculateCase
  rw [hc]
  simp only [h]

/-- Claim C7: For a SHARED case whose lookup is not above-top: when either
parent has an overnight share below 25% the pipeline terminates as redirected,
choosing as primary custodian the parent with more overnights (ties to
Parent 1), rerunning Worksheet A with that custodian, reporting the note
naming the custodian, and `calculateCase` delegates to the embedded primary
result with the `redirectedToWorksheetA` advisory; when both shares are
≥ 25% no redirect occurs (`src/shared.ts` lines 139-142, `src/calc.ts`
lines 548-568, 743-780). -/
theorem claim_C7 (inputs : CaseInputs) (schedule : Schedule)
    (base : BasicResult) (b : ℚ)
    (hc : inputs.custodyType = CustodyType.SHARED)
    (hb : computeBasic inputs schedule = Except.ok base)
    (hsome : base.basic = some b)
    (hst : base.basicStatus ≠ LookupStatus.aboveTop) :
    (meetsSharedThreshold inputs.overnightsParent1 = false →
      ∃ pr, computeSharedFinal inputs schedule = Except.ok
          (SharedFinalResult.redirected
            (determinePrimaryCustodianFromOvernights inputs.overnightsParent1)
            pr
            (redirectNote
              (determinePrimaryCustodianFromOvernights inputs.overnightsParent1))) ∧
        computePrimaryFinal
            { inputs with custodyType := CustodyType.PRIMARY
                          primaryCustodian :=
                            determinePrimaryCustodianFromOvernights
                              inputs.overnightsParent1 } schedule =
          Except.ok pr ∧
        pr.advisory = none ∧
        ∃ out, calculateCase inputs schedule = Except.ok out ∧
          out.advisory = some Advisory.redirectedToWorksheetA ∧
          out.payor = some (otherParent
            (determinePrimaryCustodianFromOvernights inputs.overnightsParent1)) ∧
          out.recommendedOrderParent1PaysParent2 =
            orientAmount out.payor (pr.line9_recommendedOrder.getD 0) ∧
          out.worksheet = primaryWorksheetMap pr ∧
          out.notes =
            redirectNote
                (determinePrimaryCustodianFromOvernights inputs.overnightsParent1) ::
              pr.note.toList) ∧
    ((365 - inputs.overnightsParent1 < inputs.overnightsParent1 →
      determinePrimaryCustodianFromOvernights inputs.overnightsParent1 =
        Parent.P1) ∧
     (inputs.overnightsParent1 < 365 - inputs.overnightsParent1 →
      determinePrimaryCustodianFromOvernights inputs.overnightsParent1 =
        Parent.P2) ∧
     (inputs.overnightsParent1 = 365 - inputs.overnightsParent1 →
      determinePrimaryCustodianFromOvernights inputs.overnightsParent1 =
        Parent.P1)) ∧
    (meetsSharedThreshold inputs.overnightsParent1 = true →
      ∃ payor rec note ws cap,
        computeSharedFinal inputs schedule =
          Except.ok (SharedFinalResult.computed payor rec note ws cap)) := by
  refine ⟨?_, ⟨?_, ?_, ?_⟩, ?_⟩
  · intro hth
    have hstart := sharedStarter_redirect inputs schedule base b hc hb hsome hst hth
    have hrerun := primary_rerun inputs schedule base b
      (determinePrimaryCustodianFromOvernights inputs.overnightsParent1)
      hb hsome hst
    have hsf : computeSharedFinal inputs schedule = Except.ok
        (SharedFinalResult.redirected
          (determinePrimaryCustodianFromOvernights inputs.overnightsParent1)
          (primaryMainFinal
            { inputs with custodyType := CustodyType.PRIMARY
                          primaryCustodian :=
                            determinePrimaryCustodianFromOvernights
                              inputs.overnightsParent1 }
            (primaryMainTotals
              { inputs with custodyType := CustodyType.PRIMARY
                            primaryCustodian :=
                              determinePrimaryCustodianFromOvernights
                                inputs.overnightsParent1 }
              { base with path := "WorksheetA" } b))
          (redirectNote
            (determinePrimaryCustodianFromOvernights inputs.overnightsParent1))) := by
      unfold computeSharedFinal
      rw [if_neg (by simp [hc])]
      simp only [hstart, hrerun]
      simp
    refine ⟨_, hsf, hrerun, rfl, ?_⟩
    have hcc := calculateCase_redirected inputs schedule
      (determinePrimaryCustodianFromOvernights inputs.overnightsParent1)
      _ _ hc hsf
    rw [if_neg (by simp [primaryMainFinal, primaryMainTotals])] at hcc
    exact ⟨_, hcc, rfl, rfl, rfl, rfl, rfl⟩
  · intro hmore
    have hpct : (1 : ℚ) / 2 < inputs.overnightsParent1 / 365 := by
      rw [div_lt_div_iff₀ (by norm_num) (by norm_num)]
      linarith
    unfold determinePrimaryCustodianFromOvernights
    rw [if_pos hpct]
  · intro hless
    have hpct : inputs.overnightsParent1 / 365 < (1 : ℚ) / 2 := by
      rw [div_lt_div_iff₀ (by norm_num) (by norm_num)]
      linarith
    unfold determinePrimaryCustodianFromOvernights
    rw [if_neg (by linarith), if_pos hpct]
  · intro heq
    have hpct : inputs.overnightsParent1 / 365 = (1 : ℚ) / 2 := by
      rw [div_eq_div_iff (by norm_num) (by norm_num)]
      linarith
    unfold determinePrimaryCustodianFromOvernights
    rw [if_neg (by rw [hpct]; norm_num), if_neg (by rw [hpct]; norm_num)]
  · intro hth
    have hstart := sharedStarter_full inputs schedule base b hc hb hsome hst hth
    have hsf : computeSharedFinal inputs schedule =
        sharedComputedStage inputs schedule
          { advisory := none
            redirectToWorksheetA := false
            basic := some b, adjustedBasic := some (adjustedBasic b)
            usedRowIncome := base.usedRowIncome
            p1AAI := base.p1AAI, p2AAI := base.p2AAI
            combinedAAI := base.combinedAAI
            p1Share := base.p1Share, p2Share := base.p2Share
            overnightsP1 := inputs.overnightsParent1
            overnightPctP1 := some (overnightPercents inputs.overnightsParent1).1
            overnightPctP2 := some (overnightPercents inputs.overnightsParent1).2 } := by
      unfold computeSharedFinal
      rw [if_neg (by simp [hc])]
      simp only [hstart]
      simp
    rw [hsf]
    set starter : SharedStarterResult :=
      { advisory := none
        redirectToWorksheetA := false
        basic := some b, adjustedBasic := some (adjustedBasic b)
        usedRowIncome := base.usedRowIncome
        p1AAI := base.p1AAI, p2AAI := base.p2AAI
        combinedAAI := base.combinedAAI
        p1Share := base.p1Share, p2Share := base.p2Share
        overnightsP1 := inputs.overnightsParent1
        overnightPctP1 := some (overnightPercents inputs.overnightsParent1).1
        overnightPctP2 := some (overnightPercents inputs.overnightsParent1).2 }
      with hstdef
    cases hnet : (sharedNet (mkSharedWork inputs starter).diff).1 with
    | none =>
      refine ⟨none, (sharedNet (mkSharedWork inputs starter).diff).2,
        (mkSharedWork inputs starter).note,
        sharedWorksheet (mkSharedWork inputs starter) none
          (sharedNet (mkSharedWork inputs starter).diff).2, none, ?_⟩
      unfold sharedComputedStage
      rw [hnet]
    | some p =>
      have hrerun := primary_rerun inputs schedule base b (otherParent p)
        hb hsome hst
      obtain ⟨v, h9eq⟩ : ∃ v, (primaryMainFinal
          { inputs with custodyType := CustodyType.PRIMARY
                        primaryCustodian := otherParent p }
          (primaryMainTotals
            { inputs with custodyType := CustodyType.PRIMARY
                          primaryCustodian := otherParent p }
            { base with path := "WorksheetA" } b)).line9_recommendedOrder =
          some v := ⟨_, rfl⟩
      refine ⟨some p,
        min (sharedNet (mkSharedWork inputs starter).diff).2 v,
        (mkSharedWork inputs starter).note,
        sharedWorksheet (mkSharedWork inputs starter) (some p)
          (sharedNet (mkSharedWork inputs starter).diff).2,
        some { before := (sharedNet (mkSharedWork inputs starter).diff).2
               after := min (sharedNet (mkSharedWork inputs starter).diff).2 v
               primary := some v }, ?_⟩
      unfold sharedComputedStage
      simp only [hnet]
      simp only [hrerun]
      simp only [h9eq]

/-- Witness for C7: with only 80 overnights for Parent 1, the shared demo
case redirects to Worksheet A with Parent 2 (the parent with more nights) as
primary custodian, and `calculateCase` carries the
`redirectedToWorksheetA` advisory. -/
theorem claim_C7_witness :
    ∃ pr out,
      computeSharedFinal demoRedirectInputs oneRowSchedule = Except.ok
        (SharedFinalResult.redirected
          (determinePrimaryCustodianFromOvernights
            demoRedirectInputs.overnightsParent1)
          pr
          (redirectNote (determinePrimaryCustodianFromOvernights
            demoRedirectInputs.overnightsParent1))) ∧
      calculateCase demoRedirectInputs oneRowSchedule = Except.ok out ∧
      out.advisory = some Advisory.redirectedToWorksheetA ∧
      determinePrimaryCustodianFromOvernights
          demoRedirectInputs.overnightsParent1 = Parent.P2 := by
  have hmain := claim_C7 demoRedirectInputs oneRowSchedule demoRedirectBasic 300
    rfl (by with_unfolding_all rfl) rfl (by decide)
  obtain ⟨pr, hsf, hpr, hadv, out, hout, houtadv, _, _, _, _⟩ :=
    hmain.1 (by with_unfolding_all rfl)
  refine ⟨pr, out, hsf, hout, houtadv, ?_⟩
  exact hmain.2.1.2.1 (by norm_num [demoRedirectInputs, demoSharedInputs])

end MdChildSupport
